import Mathlib

/-!
# Verification of the Baikal scene compilation cache (`App/Scene/scene_tracker.cpp`)

A shallow embedding of the scene tracker: material/light/texture/shape
serialization, the shape partition, the intersector bridge, and the
`CompileScene` control flow, together with theorems checking the
natural-language specification against it.

Entities referenced by pointer in the C++ code (meshes, instances, materials,
textures, lights) are modelled by numeric identities (`Nat`) held in
association-list stores; an `std::set` over pointers is modelled as the
strictly ascending list of identities (`natSetOf`), matching the
pointer-ordered iteration of `std::set`.  Scalar `float` material parameters
are modelled by `Rat` (no floating point rounding is relevant to any claim).
-/

namespace Baikal


/-- On-device BxDF tags (`ClwScene::Bxdf`). -/
inductive Bxdf where
  | kZero
  | kLambert
  | kEmissive
  | kPassthrough
  | kTranslucent
  | kIdealReflect
  | kIdealRefract
  | kMicrofacetGGX
  | kMicrofacetBeckmann
  | kMicrofacetRefractionGGX
  | kMicrofacetRefractionBeckmann
  | kMix
  | kFresnelBlend
  | kLayered
deriving DecidableEq, Repr

/-- `SingleBxdf::BxdfType`: the eleven single-BxDF kinds. -/
inductive SingleBxdfType where
  | kZero
  | kLambert
  | kEmissive
  | kPassthrough
  | kTranslucent
  | kIdealReflect
  | kIdealRefract
  | kMicrofacetGGX
  | kMicrofacetBeckmann
  | kMicrofacetRefractionGGX
  | kMicrofacetRefractionBeckmann
deriving DecidableEq, Repr

/-- `MultiBxdf::Type`: compound material kinds. -/
inductive MultiBxdfType where
  | kMix
  | kLayered
  | kFresnelBlend
deriving DecidableEq, Repr

/-- A material is either a `SingleBxdf` or a `MultiBxdf` (source-side variant). -/
inductive MatKind where
  | single (t : SingleBxdfType)
  | multi (t : MultiBxdfType)
deriving DecidableEq, Repr

/-- A 4-component float vector (`RadeonRays::float4`), with `Rat` scalars. -/
structure Float4 where
  x : Rat
  y : Rat
  z : Rat
  w : Rat
deriving DecidableEq, Repr

/-- Modelled from the spec: `Material::InputValue` (material.h is not part of
the provided sources).  Each named input is one of `{float4,
texture-reference, material-reference}`; texture references may be null;
a name with no binding reads as `unset` (a value whose type is none of the
three tags, so every `value.type == ...` test on it is false). -/
inductive InputValue where
  | float4 (v : Float4)
  | texture (t : Option Nat)
  | material (m : Nat)
  | unset
deriving DecidableEq, Repr

/-- Reading the `float_value.x` union member of an input value; for a
non-float value this reads the inactive union member, modelled as `0`. -/
def InputValue.floatX : InputValue → Rat
  | .float4 v => v.x
  | _ => 0

/-- Source-side material object: kind, named inputs, dirty bit. -/
structure MatData where
  kind : MatKind
  inputs : List (String × InputValue)
  dirty : Bool
deriving DecidableEq, Repr

/-- Modelled from the spec: `Material::GetInputValue` looks the name up in
the material's input map. -/
def MatData.getInputValue (m : MatData) (name : String) : InputValue :=
  match m.inputs.lookup name with
  | some v => v
  | none => .unset

/-- The fixed-layout on-device material record (`ClwScene::Material`),
restricted to the fields the writer assigns. -/
structure ClwMaterial where
  mtype : Bxdf
  kx : Float4
  kxmapidx : Int
  ni : Rat
  ns : Rat
  nsmapidx : Int
  nmapidx : Int
  bump_flag : Int
  fresnel : Rat
  brdfbaseidx : Int
  brdftopidx : Int
deriving DecidableEq, Repr

/-- `GetMaterialType` (scene_tracker.cpp:997): maps the source variant to the
on-device tag. -/
def GetMaterialType : MatKind → Bxdf
  | .single .kZero => .kZero
  | .single .kLambert => .kLambert
  | .single .kEmissive => .kEmissive
  | .single .kPassthrough => .kPassthrough
  | .single .kTranslucent => .kTranslucent
  | .single .kIdealReflect => .kIdealReflect
  | .single .kIdealRefract => .kIdealRefract
  | .single .kMicrofacetGGX => .kMicrofacetGGX
  | .single .kMicrofacetBeckmann => .kMicrofacetBeckmann
  | .single .kMicrofacetRefractionGGX => .kMicrofacetRefractionGGX
  | .single .kMicrofacetRefractionBeckmann => .kMicrofacetRefractionBeckmann
  | .multi .kMix => .kMix
  | .multi .kLayered => .kLayered
  | .multi .kFresnelBlend => .kFresnelBlend

/-- The microfacet roughness pre-write (scene_tracker.cpp:1050-1073): float4
roughness stores `ns` and clears `nsmapidx`; a texture stores the texture
collector index (or `-1` for a null texture).  `texIdx` models
`tex_collector.GetItemIndex`.  The `assert(false)` arm writes nothing
(asserts are no-ops in release builds). -/
def writeMaterialRoughness (m : MatData) (texIdx : Option Nat → Int)
    (r : ClwMaterial) : ClwMaterial :=
  match m.getInputValue "roughness" with
  | .float4 v => { r with ns := v.x, nsmapidx := -1 }
  | .texture t =>
      { r with nsmapidx := match t with
          | some tex => texIdx (some tex)
          | none => -1 }
  | _ => r

/-- The general branch (scene_tracker.cpp:1076-1156) shared by
`kLambert .. kIdealReflect` and reached by fall-through from the microfacet
branch: albedo, normal/bump map, fresnel, ior, roughness scalar. -/
def writeMaterialGeneral (m : MatData) (texIdx : Option Nat → Int)
    (r0 : ClwMaterial) : ClwMaterial :=
  let r1 :=
    match m.getInputValue "albedo" with
    | .float4 v => { r0 with kx := v, kxmapidx := -1 }
    | .texture t =>
        { r0 with kxmapidx := match t with
            | some tex => texIdx (some tex)
            | none => -1 }
    | _ => r0
  let r2 :=
    match m.getInputValue "normal" with
    | .texture (some t) => { r1 with nmapidx := texIdx (some t), bump_flag := 0 }
    | _ =>
      match m.getInputValue "bump" with
      | .texture (some t) => { r1 with nmapidx := texIdx (some t), bump_flag := 1 }
      | _ => { r1 with nmapidx := -1, bump_flag := 0 }
  let r3 :=
    match m.getInputValue "fresnel" with
    | .float4 v => { r2 with fresnel := if 0 < v.x then 1 else 0 }
    | _ => { r2 with fresnel := 0 }
  let r4 :=
    match m.getInputValue "ior" with
    | .float4 v => { r3 with ni := v.x }
    | _ => { r3 with ni := 1 }
  match m.getInputValue "roughness" with
  | .float4 v => { r4 with ns := v.x }
  | _ => { r4 with ns := 99/100 }

/-- The compound branch for `kMix`/`kFresnelBlend`
(scene_tracker.cpp:1161-1211).  Note the `kMix` weight-texture store passes
`value.tex_value` to the collector without a null check, mirrored by applying
`texIdx` to the option directly. -/
def writeMaterialCompound (m : MatData) (ty : Bxdf) (texIdx : Option Nat → Int)
    (matIdxOf : Nat → Int) (r0 : ClwMaterial) : ClwMaterial :=
  let r1 :=
    match m.getInputValue "base_material", m.getInputValue "top_material" with
    | .material b, .material t =>
        { r0 with brdfbaseidx := matIdxOf b, brdftopidx := matIdxOf t }
    | _, _ => r0
  if ty = Bxdf.kMix then
    let r2 := { r1 with fresnel := 0 }
    match m.getInputValue "weight" with
    | .texture t => { r2 with nsmapidx := texIdx t }
    | v => { r2 with nsmapidx := -1, ns := v.floatX }
  else
    let r2 := { r1 with fresnel := 1 }
    match m.getInputValue "ior" with
    | .float4 v => { r2 with ni := v.x }
    | _ => r2

/-- `SceneTracker::WriteMaterial` (scene_tracker.cpp:1034-1218): writes the
on-device record over the previous buffer contents `r0` and clears the
material's dirty bit.  The switch mirrors the source, including the
intentional fall-through from the microfacet cases into the general branch
and the empty `default` arm (hit by `kLayered`, which therefore writes only
the type tag). -/
def writeMaterial (m : MatData) (texIdx : Option Nat → Int)
    (matIdxOf : Nat → Int) (r0 : ClwMaterial) : ClwMaterial × MatData :=
  let ty := GetMaterialType m.kind
  let r := { r0 with mtype := ty }
  let r :=
    match ty with
    | .kZero => { r with kx := ⟨0, 0, 0, 0⟩ }
    | .kMicrofacetGGX | .kMicrofacetBeckmann
    | .kMicrofacetRefractionGGX | .kMicrofacetRefractionBeckmann =>
        writeMaterialGeneral m texIdx (writeMaterialRoughness m texIdx r)
    | .kLambert | .kEmissive | .kPassthrough | .kTranslucent
    | .kIdealRefract | .kIdealReflect =>
        writeMaterialGeneral m texIdx r
    | .kMix | .kFresnelBlend =>
        writeMaterialCompound m ty texIdx matIdxOf r
    | .kLayered => r
  (r, { m with dirty := false })

/-- The four microfacet kinds of the roughness pre-write branch. -/
def isMicrofacet : MatKind → Prop
  | .single .kMicrofacetGGX => True
  | .single .kMicrofacetBeckmann => True
  | .single .kMicrofacetRefractionGGX => True
  | .single .kMicrofacetRefractionBeckmann => True
  | _ => False

instance (k : MatKind) : Decidable (isMicrofacet k) := by
  unfold isMicrofacet
  split <;> infer_instance

/-- A concrete microfacet GGX material with a texture-valued roughness. -/
def mMfW : MatData :=
  { kind := .single .kMicrofacetGGX
    inputs := [("roughness", .texture (some 4)),
               ("albedo", .float4 ⟨1, 0, 0, 1⟩)]
    dirty := true }

/-- A concrete collector index function for witnesses. -/
def texIdxW : Option Nat → Int
  | some n => (n : Int)
  | none => -1

/-- A concrete record of prior buffer contents for witnesses. -/
def r0W : ClwMaterial :=
  { mtype := .kZero, kx := ⟨0, 0, 0, 0⟩, kxmapidx := 0, ni := 0, ns := 0
    nsmapidx := 0, nmapidx := 0, bump_flag := 0, fresnel := 0
    brdfbaseidx := 0, brdftopidx := 0 }

/-- A concrete layered material for the C10 witness. -/
def mLayeredW : MatData :=
  { kind := .multi .kLayered
    inputs := [("base_material", .material 2), ("top_material", .material 3)]
    dirty := true }

/-! ## Entity stores and the scene

Pointer-identified entities live in association-list stores keyed by `Nat`
identities.  `C++` pointer comparison (`std::set` ordering, `std::map`
lookup) becomes comparison of identities. -/

/-- An association-list store keyed by entity identity. -/
abbrev Store (α : Type) : Type := List (Nat × α)

/-- Apply `f` to the entry with key `k` (models a write through a pointer). -/
def storeSet {α : Type} (s : Store α) (k : Nat) (f : α → α) : Store α :=
  s.map fun p => if p.1 = k then (p.1, f p.2) else p

/-- Source-side `Mesh`: geometry array sizes, transform (opaque token),
optional material reference, dirty bit. -/
structure MeshData where
  numVertices : Nat
  numNormals : Nat
  numUVs : Nat
  numIndices : Nat
  transform : Int
  material : Option Nat
  dirty : Bool
deriving DecidableEq, Repr, Inhabited

/-- Source-side `Instance`: base mesh identity, own transform, optional
material reference, dirty bit. -/
structure InstData where
  base : Nat
  transform : Int
  material : Option Nat
  dirty : Bool
deriving DecidableEq, Repr, Inhabited

/-- The five light kinds; `ibl` carries its texture reference, `area` its
shape reference and primitive index. -/
inductive LightKind where
  | point
  | directional
  | spot
  | ibl (tex : Nat)
  | area (shape : Nat) (prim : Nat)
deriving DecidableEq, Repr

/-- Source-side `Light`: kind and dirty bit. -/
structure LightData where
  kind : LightKind
  dirty : Bool
deriving DecidableEq, Repr

/-- Source-side `Texture`: dirty bit (payload and size are irrelevant to the
claims). -/
structure TexData where
  dirty : Bool
deriving DecidableEq, Repr

/-- A shape held by the scene's shape iterator: a mesh or an instance,
referenced by identity (`dynamic_cast<Instance const*>` becomes the
constructor tag). -/
inductive ShapeRef where
  | mesh (i : Nat)
  | inst (i : Nat)
deriving DecidableEq, Repr

/-- `Scene1` dirty-flag bitmask (`kCamera`/`kLights`/`kShapes`). -/
structure SceneDirtyFlags where
  camera : Bool
  lights : Bool
  shapes : Bool
deriving DecidableEq, Repr

/-- The empty dirty-flag set (`ClearDirtyFlags`). -/
def SceneDirtyFlags.cleared : SceneDirtyFlags :=
  { camera := false, lights := false, shapes := false }

/-- The source scene: identity, shape iterator order, light iterator order,
camera presence, dirty-flag set. -/
structure Scene1 where
  sid : Nat
  shapes : List ShapeRef
  lights : List Nat
  camera : Bool
  dirtyFlags : SceneDirtyFlags
deriving DecidableEq, Repr

/-- The full mutable state the compiler reads and writes: the scene plus the
entity stores and the camera object's dirty bit. -/
structure World where
  scene : Scene1
  meshStore : Store MeshData
  instStore : Store InstData
  lightStore : Store LightData
  matStore : Store MatData
  texStore : Store TexData
  cameraDirty : Bool
deriving DecidableEq, Repr

/-- Identity of the tracker-owned default material
(`m_default_material`, a `kLambert` with albedo `(0.5, 0.6, 0.5, 1)`),
substituted wherever a shape or instance has no material. -/
def defaultMaterialId : Nat := 0

/-- Mesh data behind a mesh identity (dereferencing a `Mesh const*`). -/
def World.meshD (W : World) (i : Nat) : MeshData :=
  (List.lookup i W.meshStore).getD default

/-- Instance data behind an instance identity. -/
def World.instD (W : World) (i : Nat) : InstData :=
  (List.lookup i W.instStore).getD default

/-- `Instance::GetBaseShape` as an identity. -/
def World.instBase (W : World) (i : Nat) : Nat :=
  (W.instD i).base

/-! ## The shape partition (`SplitMeshesAndInstances`, scene_tracker.cpp:339)

The C++ accumulates shapes into `std::set`s over pointers; iteration over an
`std::set` visits keys in increasing pointer order.  `natSetOf` produces the
sorted duplicate-free list of identities, which is exactly that iteration
order. -/

/-- Ordered insertion into a strictly ascending list, skipping duplicates
(`std::set::emplace`). -/
def insertSorted (x : Nat) : List Nat → List Nat
  | [] => [x]
  | y :: ys =>
      if x < y then x :: y :: ys
      else if x = y then y :: ys
      else y :: insertSorted x ys

/-- The iteration order of an `std::set` holding the elements of `l`:
strictly ascending, duplicate-free. -/
def natSetOf (l : List Nat) : List Nat :=
  l.foldl (fun s x => insertSorted x s) []

/-- The mesh identities of a shape list, in iterator order. -/
def sceneMeshIds (ss : List ShapeRef) : List Nat :=
  ss.filterMap fun s => match s with | .mesh i => some i | .inst _ => none

/-- The instance identities of a shape list, in iterator order. -/
def sceneInstIds (ss : List ShapeRef) : List Nat :=
  ss.filterMap fun s => match s with | .mesh _ => none | .inst i => some i

/-- The three sets produced by `SplitMeshesAndInstances`. -/
structure SplitOut where
  meshes : List Nat
  instances : List Nat
  excluded : List Nat
deriving DecidableEq, Repr

/-- `SplitMeshesAndInstances` (scene_tracker.cpp:339-386): non-instance
shapes into `meshes`, instances into `instances`, then each instance's base
mesh not already in `meshes` into `excluded_meshes`; each an `std::set`. -/
def splitMeshesAndInstances (W : World) (ss : List ShapeRef) : SplitOut :=
  let meshes := natSetOf (sceneMeshIds ss)
  let insts := natSetOf (sceneInstIds ss)
  let excluded :=
    natSetOf ((insts.map W.instBase).filter fun b => !(decide (b ∈ meshes)))
  { meshes := meshes, instances := insts, excluded := excluded }

/-! ## Shape serialization (`SceneTracker::UpdateShapes`, scene_tracker.cpp:574)

The three loops (meshes, excluded meshes, instances) are folds over the
partition.  Buffer contents that matter to the claims are tracked: the shape
records, the material-ids array, the running vertex/normal/uv/index write
counters, the `shape_data` base-record map, and the order in which shapes
are visited. -/

/-- The on-device shape record (`ClwScene::Shape`), with the 4x4 transform
abstracted to one opaque token (velocities are constants in the source). -/
structure ShapeRec where
  numprims : Nat
  startvtx : Nat
  startidx : Nat
  start_material_idx : Nat
  transform : Int
deriving DecidableEq, Repr, Inhabited

/-- The serializer's running state: write counters, the material-ids array,
the shape records written so far, the `shape_data` map, and the visit log. -/
structure SerState where
  nv : Nat
  nn : Nat
  nuv : Nat
  nidx : Nat
  matids : List Int
  recs : List ShapeRec
  shapeData : Store ShapeRec
  visitLog : List Nat
deriving DecidableEq, Repr

/-- The serializer's initial state (all counters zero, empty arrays). -/
def serInit : SerState :=
  { nv := 0, nn := 0, nuv := 0, nidx := 0, matids := [], recs := []
    shapeData := [], visitLog := [] }

/-- One iteration of the mesh loop (scene_tracker.cpp:664-727): append
geometry, write the record, record it in `shape_data`, fill the
material-ids region with the mesh's material collector index (default
material if none), clear the mesh dirty bit (tracked in `updateShapesW`). -/
def serMesh (W : World) (matIdxOf : Nat → Int) (st : SerState) (i : Nat) :
    SerState :=
  let md := W.meshD i
  let r : ShapeRec :=
    { numprims := md.numIndices / 3
      startvtx := st.nv
      startidx := st.nidx
      start_material_idx := st.matids.length
      transform := md.transform }
  { nv := st.nv + md.numVertices
    nn := st.nn + md.numNormals
    nuv := st.nuv + md.numUVs
    nidx := st.nidx + md.numIndices
    matids := st.matids ++ List.replicate (md.numIndices / 3)
        (matIdxOf (md.material.getD defaultMaterialId))
    recs := st.recs ++ [r]
    shapeData := (i, r) :: st.shapeData
    visitLog := st.visitLog ++ [i] }

/-- One iteration of the excluded-mesh loop (scene_tracker.cpp:731-787):
identical to the mesh loop except the material-ids region is filled with
`-1` (excluded meshes are never shaded). -/
def serExcluded (W : World) (st : SerState) (i : Nat) : SerState :=
  let md := W.meshD i
  let r : ShapeRec :=
    { numprims := md.numIndices / 3
      startvtx := st.nv
      startidx := st.nidx
      start_material_idx := st.matids.length
      transform := md.transform }
  { nv := st.nv + md.numVertices
    nn := st.nn + md.numNormals
    nuv := st.nuv + md.numUVs
    nidx := st.nidx + md.numIndices
    matids := st.matids ++ List.replicate (md.numIndices / 3) (-1)
    recs := st.recs ++ [r]
    shapeData := (i, r) :: st.shapeData
    visitLog := st.visitLog ++ [i] }

/-- One iteration of the instance loop (scene_tracker.cpp:790-829): reuse
the base mesh's record from `shape_data` (an `std::map` lookup, defaulting
like `operator[]` would), overwrite `start_material_idx` and the transform,
fill a fresh material-ids region with the instance's material collector
index; no geometry is appended. -/
def serInst (W : World) (matIdxOf : Nat → Int) (st : SerState) (i : Nat) :
    SerState :=
  let ins := W.instD i
  let baseNumIndices := (W.meshD ins.base).numIndices
  let br := (List.lookup ins.base st.shapeData).getD default
  let r : ShapeRec :=
    { br with start_material_idx := st.matids.length
              transform := ins.transform }
  { st with
    matids := st.matids ++ List.replicate (baseNumIndices / 3)
        (matIdxOf (ins.material.getD defaultMaterialId))
    recs := st.recs ++ [r]
    visitLog := st.visitLog ++ [i] }

/-- The serializer state after the mesh and excluded-mesh passes. -/
def updateShapesMid (W : World) (matIdxOf : Nat → Int) (ss : List ShapeRef) :
    SerState :=
  let sp := splitMeshesAndInstances W ss
  sp.excluded.foldl (serExcluded W) (sp.meshes.foldl (serMesh W matIdxOf) serInit)

/-- The full serializer: meshes, then excluded meshes, then instances. -/
def updateShapesSer (W : World) (matIdxOf : Nat → Int) (ss : List ShapeRef) :
    SerState :=
  (splitMeshesAndInstances W ss).instances.foldl (serInst W matIdxOf)
    (updateShapesMid W matIdxOf ss)

/-- The per-instance material-ids region size: the base mesh's primitive
count (`base_shape->GetNumIndices() / 3`). -/
def instMatCount (W : World) (i : Nat) : Nat :=
  (W.meshD (W.instD i).base).numIndices / 3

/-- Mesh datum for the C8 witness scene. -/
def mdA : MeshData :=
  { numVertices := 4, numNormals := 4, numUVs := 4, numIndices := 3
    transform := 11, material := none, dirty := true }

/-- Base-mesh datum for the C8 witness scene (not itself in the scene). -/
def mdB : MeshData :=
  { numVertices := 5, numNormals := 5, numUVs := 5, numIndices := 6
    transform := 12, material := none, dirty := false }

/-- Concrete world for the C8 witness: mesh 1 in the scene, instance 6
whose base mesh 2 is excluded. -/
def w8 : World :=
  { scene := { sid := 3, shapes := [.mesh 1, .inst 6], lights := [],
               camera := true, dirtyFlags := SceneDirtyFlags.cleared }
    meshStore := [(1, mdA), (2, mdB)]
    instStore := [(6, { base := 2, transform := 77, material := none,
                        dirty := true })]
    lightStore := [], matStore := [], texStore := []
    cameraDirty := false }

/-- The record the serializer computes for base mesh 2 of `w8`. -/
def brW8 : ShapeRec :=
  { numprims := 2, startvtx := 4, startidx := 3, start_material_idx := 1
    transform := 12 }

/-- A small mesh datum used by the concrete worlds below. -/
def md0 : MeshData :=
  { numVertices := 3, numNormals := 3, numUVs := 3, numIndices := 3
    transform := 0, material := none, dirty := false }

/-- Concrete world for the C4 counterexample: two meshes whose iterator
order (identity 5 first, then 3) differs from their identity order. -/
def w4 : World :=
  { scene := { sid := 1, shapes := [.mesh 5, .mesh 3], lights := [],
               camera := true, dirtyFlags := SceneDirtyFlags.cleared }
    meshStore := [(5, md0), (3, md0)]
    instStore := [], lightStore := [], matStore := [], texStore := []
    cameraDirty := false }

/-- Concrete world for the C4 witness: one mesh (identity 1) and one
instance (identity 6) whose base mesh (identity 2) is not in the scene. -/

def w4b : World :=
  { scene := { sid := 2, shapes := [.mesh 1, .inst 6], lights := [],
               camera := true, dirtyFlags := SceneDirtyFlags.cleared }
    meshStore := [(1, md0), (2, md0)]
    instStore := [(6, { base := 2, transform := 7, material := none,
                        dirty := false })]
    lightStore := [], matStore := [], texStore := []
    cameraDirty := false }

/-! ## The intersector bridge (`SceneTracker::UpdateIntersector`,
scene_tracker.cpp:429, and `ReloadIntersector`, scene_tracker.cpp:908) -/

/-- What an acceleration-structure handle was created for. -/
inductive HandleSrc where
  | mesh (i : Nat)
  | excluded (i : Nat)
  | inst (i : Nat)
deriving DecidableEq, Repr

/-- An acceleration-structure handle (`RadeonRays::Shape*`): its source
shape, the id assigned via `SetId`, and the transform set on it. -/
structure RRHandle where
  src : HandleSrc
  hid : Nat
  transform : Int
deriving DecidableEq, Repr

/-- Running state of `UpdateIntersector`: the id counter and the two handle
lists. -/
structure IsectState where
  nextId : Nat
  isect : List RRHandle
  visible : List RRHandle
deriving DecidableEq, Repr

/-- One iteration of the mesh loop (scene_tracker.cpp:468-495): create the
handle, set transform and id, push to `isect_shapes` AND `visible_shapes`. -/
def isectMeshStep (W : World) (st : IsectState) (i : Nat) : IsectState :=
  let h : RRHandle :=
    { src := .mesh i, hid := st.nextId, transform := (W.meshD i).transform }
  { nextId := st.nextId + 1, isect := st.isect ++ [h],
    visible := st.visible ++ [h] }

/-- One iteration of the excluded-mesh loop (scene_tracker.cpp:498-524):
same, but pushed only to `isect_shapes`. -/
def isectExcludedStep (W : World) (st : IsectState) (i : Nat) : IsectState :=
  let h : RRHandle :=
    { src := .excluded i, hid := st.nextId, transform := (W.meshD i).transform }
  { nextId := st.nextId + 1, isect := st.isect ++ [h], visible := st.visible }

/-- One iteration of the instance loop (scene_tracker.cpp:527-538): create
an instance handle, set the instance's own transform and id, push to both
lists. -/
def isectInstStep (W : World) (st : IsectState) (i : Nat) : IsectState :=
  let h : RRHandle :=
    { src := .inst i, hid := st.nextId, transform := (W.instD i).transform }
  { nextId := st.nextId + 1, isect := st.isect ++ [h],
    visible := st.visible ++ [h] }

/-- The handle lists owned by a compiled scene. -/
structure IsectOut where
  isect_shapes : List RRHandle
  visible_shapes : List RRHandle
deriving DecidableEq, Repr

/-- `SceneTracker::UpdateIntersector`: throws "No shapes in the scene"
(`none`) for an empty iterator; otherwise partitions the shapes and creates
handles with ids assigned monotonically from 1 over meshes, excluded
meshes, then instances. -/
def updateIntersector (W : World) (ss : List ShapeRef) : Option IsectOut :=
  if ss.isEmpty then none
  else
    let sp := splitMeshesAndInstances W ss
    let st1 := sp.meshes.foldl (isectMeshStep W)
      { nextId := 1, isect := [], visible := [] }
    let st2 := sp.excluded.foldl (isectExcludedStep W) st1
    let st3 := sp.instances.foldl (isectInstStep W) st2
    some { isect_shapes := st3.isect, visible_shapes := st3.visible }

/-- `SceneTracker::ReloadIntersector`: `DetachAll`, attach every handle in
`visible_shapes`, `Commit`; the attached set afterwards is exactly
`visible_shapes`. -/
def reloadIntersector (out : IsectOut) : List RRHandle :=
  out.visible_shapes

/-- The invariant linking the two handle lists: `visible ⊆ isect`, every
visible handle is a mesh or instance handle, and every mesh or instance
handle in `isect` is visible. -/
def HandleInv (isect visible : List RRHandle) : Prop :=
  visible ⊆ isect ∧
  (∀ hd ∈ visible,
    (∃ i, hd.src = HandleSrc.mesh i) ∨ (∃ i, hd.src = HandleSrc.inst i)) ∧
  (∀ hd ∈ isect,
    ((∃ i, hd.src = HandleSrc.mesh i) ∨ (∃ i, hd.src = HandleSrc.inst i)) →
      hd ∈ visible)

/-- The handle lists `UpdateIntersector` produces for `w8`. -/
def outW8 : IsectOut :=
  { isect_shapes := [{ src := .mesh 1, hid := 1, transform := 11 },
                     { src := .excluded 2, hid := 2, transform := 12 },
                     { src := .inst 6, hid := 3, transform := 77 }]
    visible_shapes := [{ src := .mesh 1, hid := 1, transform := 11 },
                       { src := .inst 6, hid := 3, transform := 77 }] }

/-! ## Lights (`SceneTracker::UpdateLights`, scene_tracker.cpp:1313) and the
collectors -/

/-- Whether the light behind identity `i` is an `ImageBasedLight`
(`dynamic_cast<ImageBasedLight const*>`); absent entries are no light at
all, hence not an IBL. -/
def World.isIbl (W : World) (i : Nat) : Bool :=
  match List.lookup i W.lightStore with
  | some d => match d.kind with | .ibl _ => true | _ => false
  | none => false

/-- The `UpdateLights` serialization loop (scene_tracker.cpp:1336-1351)
restricted to `num_lights_written` and `envmapidx`: the counter is
incremented after each write and `envmapidx := num_lights_written - 1`
whenever the light is an IBL (last one wins).  The loop's other effects
(record writes, dirty clears) touch disjoint state and are modelled
separately. -/
def envFold (W : World) (lids : List Nat) : Int :=
  (lids.foldl
    (fun (acc : Nat × Int) lid =>
      let written := acc.1 + 1
      (written, if W.isIbl lid then ((written : Int) - 1) else acc.2))
    (0, -1)).2

/-- The 0-based position of the last IBL light in light-iterator order, if
any: the specification-side description of `envmapidx`. -/
def lastIblPos (W : World) : List Nat → Option Nat
  | [] => none
  | x :: xs =>
      match lastIblPos W xs with
      | some j => some (j + 1)
      | none => if W.isIbl x then some 0 else none

/-- Dirty bit of the light behind `i` (`Light::IsDirty`). -/
def World.lightDirty (W : World) (i : Nat) : Bool :=
  ((List.lookup i W.lightStore).map (fun d => d.dirty)).getD false

/-- Dirty bit of a shape (`Shape::IsDirty`). -/
def World.shapeDirty (W : World) : ShapeRef → Bool
  | .mesh i => ((List.lookup i W.meshStore).map (fun d => d.dirty)).getD false
  | .inst i => ((List.lookup i W.instStore).map (fun d => d.dirty)).getD false

/-- Dirty bit of the material behind `i` (`Material::IsDirty`). -/
def World.matDirty (W : World) (i : Nat) : Bool :=
  ((List.lookup i W.matStore).map (fun d => d.dirty)).getD false

/-- Dirty bit of the texture behind `i` (`Texture::IsDirty`). -/
def World.texDirty (W : World) (i : Nat) : Bool :=
  ((List.lookup i W.texStore).map (fun d => d.dirty)).getD false

/-- `SetDirty(false)` on the listed mesh identities. -/
def clearMeshKeys (s : Store MeshData) (ks : List Nat) : Store MeshData :=
  ks.foldl (fun s k => storeSet s k (fun d => { d with dirty := false })) s

/-- `SetDirty(false)` on the listed instance identities. -/
def clearInstKeys (s : Store InstData) (ks : List Nat) : Store InstData :=
  ks.foldl (fun s k => storeSet s k (fun d => { d with dirty := false })) s

/-- `SetDirty(false)` on the listed light identities. -/
def clearLightKeys (s : Store LightData) (ks : List Nat) : Store LightData :=
  ks.foldl (fun s k => storeSet s k (fun d => { d with dirty := false })) s

/-- `SetDirty(false)` on the listed material identities. -/
def clearMatKeys (s : Store MatData) (ks : List Nat) : Store MatData :=
  ks.foldl (fun s k => storeSet s k (fun d => { d with dirty := false })) s

/-- World effect of `UpdateCamera` (scene_tracker.cpp:541-572): clear the
camera's dirty bit (the camera buffer rewrite is tracked as a pass). -/
def updateCameraWorld (W : World) : World :=
  { W with cameraDirty := false }

/-- World effect of `UpdateLights`: clear every scene light's dirty bit
(scene_tracker.cpp:1349). -/
def updateLightsWorld (W : World) : World :=
  { W with lightStore := clearLightKeys W.lightStore W.scene.lights }

/-- World effect of `UpdateShapes`: clear the dirty bit of every mesh,
excluded mesh (scene_tracker.cpp:726, 786) and instance
(scene_tracker.cpp:828) of the partition. -/
def updateShapesWorld (W : World) : World :=
  let sp := splitMeshesAndInstances W W.scene.shapes
  { W with
    meshStore := clearMeshKeys W.meshStore (sp.meshes ++ sp.excluded)
    instStore := clearInstKeys W.instStore sp.instances }

/-- Materials referenced by material-valued inputs: modelled from the spec,
the dependency iterator `Material::CreateMaterialIterator` yields the
materials referenced by the material's inputs. -/
def MatData.depMaterials (m : MatData) : List Nat :=
  m.inputs.filterMap fun p =>
    match p.2 with | .material i => some i | _ => none

/-- Dependency materials of the material behind `i`. -/
def World.matChildren (W : World) (i : Nat) : List Nat :=
  ((List.lookup i W.matStore).map MatData.depMaterials).getD []

/-- The root material of a shape: its own material, or the tracker's
default material when it has none (scene_tracker.cpp:79-85). -/
def World.shapeMatRoot (W : World) : ShapeRef → Nat
  | .mesh i =>
      ((List.lookup i W.meshStore).bind (fun d => d.material)).getD
        defaultMaterialId
  | .inst i =>
      ((List.lookup i W.instStore).bind (fun d => d.material)).getD
        defaultMaterialId

/-- One expansion round of the material dependency closure. -/
def expandMats (W : World) (s : List Nat) : List Nat :=
  natSetOf (s ++ s.flatMap (W.matChildren))

/-- Modelled from the spec: the committed material collector contents — the
set of materials transitively reachable from the shapes' root materials
(scene_tracker.cpp:67-115), in the collector's set order.  The C++ stack
drain terminates exactly on cycle-free dependency graphs; on those,
`matStore.length` expansion rounds reach its result. -/
def collectMats (W : World) : List Nat :=
  (expandMats W)^[W.matStore.length]
    (natSetOf (W.scene.shapes.map (W.shapeMatRoot)))

/-- Textures referenced by texture-valued inputs: modelled from the spec,
`Material::CreateTextureIterator` yields every texture directly referenced
by an input (null texture references yield nothing). -/
def MatData.depTextures (m : MatData) : List Nat :=
  m.inputs.filterMap fun p =>
    match p.2 with | .texture (some t) => some t | _ => none

/-- Dependency textures of the material behind `i`. -/
def World.matTexChildren (W : World) (i : Nat) : List Nat :=
  ((List.lookup i W.matStore).map MatData.depTextures).getD []

/-- Modelled from the spec: `Light::CreateTextureIterator` yields the
referenced texture of an IBL light and nothing for other kinds. -/
def World.lightTexChildren (W : World) (i : Nat) : List Nat :=
  match List.lookup i W.lightStore with
  | some d => match d.kind with | .ibl t => [t] | _ => []
  | none => []

/-- The committed texture collector contents: textures collected from the
committed materials and then from the lights (scene_tracker.cpp:119-167). -/
def collectTexs (W : World) (mats : List Nat) : List Nat :=
  natSetOf (mats.flatMap (W.matTexChildren) ++
    W.scene.lights.flatMap (W.lightTexChildren))

/-! ## `SceneTracker::CompileScene` (scene_tracker.cpp:45-337) -/

/-- Compile-call failures: the three `std::runtime_error` throws, plus the
null-camera dereference `UpdateCamera` performs when a scene without a
camera is compiled for the first time (undefined behaviour in C++,
modelled as a distinguished fault — notably NOT the "No camera in the
scene" error). -/
inductive CErr where
  | noCamera
  | noLights
  | noShapes
  | cameraNullDeref
deriving DecidableEq, Repr

/-- The device passes a `compile` call can run, in execution order.
`shapes` stands for `UpdateShapes`, which recreates the vertex, normal, uv
and index pools, the shapes buffer AND the material-ids buffer;
`intersector` recreates the handle set; `reload` re-attaches and commits. -/
inductive BuildPass where
  | camera
  | lights
  | shapes
  | materials
  | textures
  | intersector
  | reload
deriving DecidableEq, Repr

/-- The cached device-side record (`ClwScene`), restricted to the fields the
claims observe. -/
structure ClwSceneRec where
  envmapidx : Int
  numLights : Nat
  isect_shapes : List RRHandle
  visible_shapes : List RRHandle
  attached : List RRHandle
  material_bundle : Option (List Nat)
  texture_bundle : Option (List Nat)
deriving DecidableEq, Repr

/-- A freshly constructed `ClwScene` (cache emplace, scene_tracker.cpp:175). -/
def ClwSceneRec.empty : ClwSceneRec :=
  { envmapidx := -1, numLights := 0, isect_shapes := [], visible_shapes := []
    attached := [], material_bundle := none, texture_bundle := none }

/-- The tracker's mutable state: the scene cache (`m_scene_cache`) and the
current scene (`m_current_scene`). -/
structure Tracker where
  cache : Store ClwSceneRec
  current : Option Nat
deriving DecidableEq, Repr

/-- Write through the cached-entry reference: replace the value stored for
scene `sid`. -/
def Tracker.writeCache (T : Tracker) (sid : Nat) (c : ClwSceneRec) : Tracker :=
  { T with cache := storeSet T.cache sid (fun _ => c) }

/-- Modelled from the spec: `Collector::NeedsUpdate` — true iff the current
committed contents differ from the snapshot in membership or order, or some
current item's dirty predicate holds. -/
def needsUpdate (prev cur : List Nat) (dirtyFn : Nat → Bool) : Bool :=
  !(prev == cur) || cur.any dirtyFn

/-- `SceneTracker::UpdateLights` (scene_tracker.cpp:1313-1356): write each
light record, track `envmapidx` (last IBL wins), clear each light's dirty
bit, and set `num_lights` to the number of lights written. -/
def updateLights (W : World) (c : ClwSceneRec) : World × ClwSceneRec :=
  (updateLightsWorld W,
   { c with envmapidx := envFold W W.scene.lights
            numLights := W.scene.lights.length })

/-- `SceneTracker::UpdateMaterials` (scene_tracker.cpp:839-875): refresh the
material bundle, then `WriteMaterial` each committed material, which clears
its dirty bit. -/
def updateMaterials (W : World) (c : ClwSceneRec) (mats : List Nat) :
    World × ClwSceneRec :=
  ({ W with matStore := clearMatKeys W.matStore mats },
   { c with material_bundle := some mats })

/-- `SceneTracker::UpdateTextures` (scene_tracker.cpp:920-994): with zero
committed textures, only dummy 1-byte buffers are created and the bundle is
left alone; otherwise the bundle is refreshed and headers and payloads are
written.  Texture dirty bits are never cleared by this pass. -/
def updateTexturesC (c : ClwSceneRec) (texs : List Nat) : ClwSceneRec :=
  if texs.isEmpty then c else { c with texture_bundle := some texs }

/-- `UpdateIntersector`'s effect on the cached record: the new handle
lists. -/
def updateIntersectorC (c : ClwSceneRec) (io : IsectOut) : ClwSceneRec :=
  { c with isect_shapes := io.isect_shapes
           visible_shapes := io.visible_shapes }

/-- `ReloadIntersector`'s effect on the cached record: the attached set
becomes `visible_shapes`. -/
def reloadC (c : ClwSceneRec) : ClwSceneRec :=
  { c with attached := c.visible_shapes }

/-- `scene.ClearDirtyFlags()` plus the material collector `Finalize` that
clears every committed material's dirty bit (scene_tracker.cpp:187-194 and
324-332). -/
def finalizeScene (W : World) (mats : List Nat) : World :=
  { W with
    scene := { W.scene with dirtyFlags := SceneDirtyFlags.cleared }
    matStore := clearMatKeys W.matStore mats }

/-- The outcome of one `CompileScene` call: tracker and world as left behind
(also on failure — a C++ throw does not roll back completed side effects),
the device passes that ran to completion, and the error thrown if any. -/
structure CompileResult where
  tracker : Tracker
  world : World
  passes : List BuildPass
  err : Option CErr
deriving DecidableEq, Repr

/-- The cache-miss path (scene_tracker.cpp:172-198): emplace a fresh record,
`RecompileFull` (camera, lights, shapes, materials, textures, intersector —
scene_tracker.cpp:877-906), `ReloadIntersector`, set the current scene,
clear dirty flags, finalize materials.  With no camera, `UpdateCamera`
performs the null dereference before any pass completes. -/
def compileMiss (T : Tracker) (W : World) (mats texs : List Nat) :
    CompileResult :=
  let sid := W.scene.sid
  let T1 : Tracker := { T with cache := (sid, ClwSceneRec.empty) :: T.cache }
  if W.scene.camera = false then
    { tracker := T1, world := W, passes := [], err := some .cameraNullDeref }
  else
    let W1 := updateCameraWorld W
    let Wc1 := updateLights W1 ClwSceneRec.empty
    let W3 := updateShapesWorld Wc1.1
    let Wc2 := updateMaterials W3 Wc1.2 mats
    let c3 := updateTexturesC Wc2.2 texs
    match updateIntersector Wc2.1 Wc2.1.scene.shapes with
    | none =>
        { tracker := T1.writeCache sid c3, world := Wc2.1
          passes := [.camera, .lights, .shapes, .materials, .textures]
          err := some .noShapes }
    | some io =>
        let c4 := reloadC (updateIntersectorC c3 io)
        { tracker := { (T1.writeCache sid c4) with current := some sid }
          world := finalizeScene Wc2.1 mats
          passes := [.camera, .lights, .shapes, .materials, .textures,
            .intersector, .reload]
          err := none }

/-- The tail of the cache-hit path after the shape stage: bundle-driven
material and texture updates (scene_tracker.cpp:290-312), intersector
reload on scene switch (scene_tracker.cpp:315-322), clear dirty flags and
finalize materials. -/
def compileHitTail (T : Tracker) (W : World) (mats texs : List Nat)
    (sid : Nat) (ps : List BuildPass) (c : ClwSceneRec) : CompileResult :=
  let doMats := c.material_bundle.isNone ||
    needsUpdate (c.material_bundle.getD []) mats (W.matDirty)
  let Wc5 := if doMats then updateMaterials W c mats else (W, c)
  let ps5 := ps ++ (if doMats then [BuildPass.materials] else [])
  let doTexs := !texs.isEmpty && (Wc5.2.texture_bundle.isNone ||
    needsUpdate (Wc5.2.texture_bundle.getD []) texs (Wc5.1.texDirty))
  let c6 := if doTexs then updateTexturesC Wc5.2 texs else Wc5.2
  let ps6 := ps5 ++ (if doTexs then [BuildPass.textures] else [])
  let c7 := if T.current = some sid then c6 else reloadC c6
  let ps7 := ps6 ++ (if T.current = some sid then [] else [BuildPass.reload])
  { tracker := { (T.writeCache sid c7) with current := some sid }
    world := finalizeScene Wc5.1 mats
    passes := ps7
    err := none }

/-- The cache-hit path (scene_tracker.cpp:199-336): the camera, lights and
shapes precondition checks, conditional camera/lights/shapes updates per
dirty flags and per-entity dirty bits, then the tail above.  The light and
shape checks re-create iterators from the scene object and read per-entity
dirty bits; since no earlier pass of the same call modifies the scene's
iterators or those dirty bits (the camera pass touches only the camera, the
lights pass only light dirty bits), they are read off the incoming `W`. -/
def compileHit (T : Tracker) (W : World) (mats texs : List Nat)
    (c0 : ClwSceneRec) : CompileResult :=
  let sid := W.scene.sid
  let dirty := W.scene.dirtyFlags
  if W.scene.camera = false then
    { tracker := T, world := W, passes := [], err := some .noCamera }
  else
    let doCam := dirty.camera || W.cameraDirty
    let W1 := if doCam then updateCameraWorld W else W
    let ps1 : List BuildPass := if doCam then [.camera] else []
    if W.scene.lights.isEmpty then
      { tracker := T, world := W1, passes := ps1, err := some .noLights }
    else
      let lightsChanged := W.scene.lights.any (W.lightDirty)
      let doLights := dirty.lights || lightsChanged
      let Wc2 := if doLights then updateLights W1 c0 else (W1, c0)
      let ps2 := ps1 ++ (if doLights then [BuildPass.lights] else [])
      if W.scene.shapes.isEmpty then
        { tracker := T.writeCache sid Wc2.2, world := Wc2.1, passes := ps2
          err := some .noShapes }
      else
        let shapesChanged := W.scene.shapes.any (W.shapeDirty)
        let doShapes := dirty.shapes || shapesChanged
        if doShapes then
          let W3 := updateShapesWorld Wc2.1
          match updateIntersector W3 W.scene.shapes with
          | none =>
              { tracker := T.writeCache sid Wc2.2, world := W3
                passes := ps2 ++ [.shapes], err := some .noShapes }
          | some io =>
              compileHitTail T W3 mats texs sid
                (ps2 ++ [.shapes, .intersector, .reload])
                (reloadC (updateIntersectorC Wc2.2 io))
        else
          compileHitTail T Wc2.1 mats texs sid ps2 Wc2.2

/-- `SceneTracker::CompileScene`: clear and refill both collectors (material
commit, then texture commit), then the cache-miss or cache-hit path. -/
def compile (T : Tracker) (W : World) : CompileResult :=
  let mats := collectMats W
  let texs := collectTexs W mats
  match List.lookup W.scene.sid T.cache with
  | none => compileMiss T W mats texs
  | some c0 => compileHit T W mats texs c0

/-- The tracker's default material (`SingleBxdf{kLambert}`, albedo
`(0.5, 0.6, 0.5, 1)`), present in concrete worlds at identity 0. -/
def defaultMatData : MatData :=
  { kind := .single .kLambert
    inputs := [("albedo", .float4 ⟨1/2, 3/5, 1/2, 1⟩)]
    dirty := false }

/-- Concrete cached world for the C9 witness: one clean mesh, one clean
point light, clean camera, dirty flags exactly `{kShapes}`. -/
def w9 : World :=
  { scene := { sid := 4, shapes := [.mesh 1], lights := [10], camera := true,
               dirtyFlags := { camera := false, lights := false,
                               shapes := true } }
    meshStore := [(1, md0)]
    instStore := []
    lightStore := [(10, { kind := .point, dirty := false })]
    matStore := [(0, defaultMatData)]
    texStore := []
    cameraDirty := false }

/-- Tracker with `w9`'s scene already cached and current. -/
def t9 : Tracker := { cache := [(4, ClwSceneRec.empty)], current := some 4 }

/-- Concrete world for C3: shapes and lights present, no camera. -/
def w3 : World :=
  { scene := { sid := 5, shapes := [.mesh 1], lights := [10], camera := false,
               dirtyFlags := SceneDirtyFlags.cleared }
    meshStore := [(1, md0)]
    instStore := []
    lightStore := [(10, { kind := .point, dirty := false })]
    matStore := [(0, defaultMatData)]
    texStore := []
    cameraDirty := false }

/-- Empty tracker: `w3` has never been compiled. -/
def t3 : Tracker := { cache := [], current := none }

/-- Tracker with `w3`'s scene already cached, for the C3 witness. -/
def t3b : Tracker := { cache := [(5, ClwSceneRec.empty)], current := some 5 }

/-- Concrete world for C1: a complete scene whose one collected texture
(identity 9, referenced by material 5's albedo) is dirty. -/
def w1c : World :=
  { scene := { sid := 1, shapes := [.mesh 2], lights := [10], camera := true,
               dirtyFlags := { camera := true, lights := true, shapes := true } }
    meshStore := [(2, { numVertices := 3, numNormals := 3, numUVs := 3,
                        numIndices := 3, transform := 0, material := some 5,
                        dirty := true })]
    instStore := []
    lightStore := [(10, { kind := .point, dirty := true })]
    matStore := [(0, defaultMatData),
                 (5, { kind := .single .kLambert
                       inputs := [("albedo", .texture (some 9))]
                       dirty := true })]
    texStore := [(9, { dirty := true })]
    cameraDirty := true }

/-- Empty tracker for the C1 counterexample. -/
def t1c : Tracker := { cache := [], current := none }

/-! ## Theorems -/

theorem writeMaterialGeneral_nsmapidx (m : MatData) (texIdx : Option Nat → Int)
    (r : ClwMaterial) : (writeMaterialGeneral m texIdx r).nsmapidx = r.nsmapidx := by
  unfold writeMaterialGeneral
  dsimp only
  repeat' split
  all_goals rfl

theorem writeMaterialGeneral_ns_of_not_float (m : MatData)
    (texIdx : Option Nat → Int) (r : ClwMaterial)
    (h : ∀ v, m.getInputValue "roughness" ≠ .float4 v) :
    (writeMaterialGeneral m texIdx r).ns = 99/100 := by
  unfold writeMaterialGeneral
  dsimp only
  repeat' split
  all_goals try rfl
  all_goals exact absurd (by assumption) (h _)

theorem writeMaterial_microfacet_eq (m : MatData) (texIdx : Option Nat → Int)
    (matIdxOf : Nat → Int) (r0 : ClwMaterial) (hk : isMicrofacet m.kind) :
    (writeMaterial m texIdx matIdxOf r0).1 =
      writeMaterialGeneral m texIdx
        (writeMaterialRoughness m texIdx
          { r0 with mtype := GetMaterialType m.kind }) := by
  rcases m with ⟨k, ins, d⟩
  rcases k with t | t
  · cases t <;> first | exact hk.elim | rfl
  · cases t <;> exact hk.elim

/-- Claim C5: for a microfacet material whose `roughness` input is a non-null
texture, `WriteMaterial` stores the texture collector index in `nsmapidx`,
and `ns` nevertheless ends up holding the scalar fallback `0.99` (the
`roughness` input is not a float4 here), because the microfacet branch falls
through into the general branch which writes `ns` a second time. -/
theorem microfacet_roughness_texture_ns_fallback (m : MatData)
    (texIdx : Option Nat → Int) (matIdxOf : Nat → Int) (r0 : ClwMaterial)
    (t : Nat) (hk : isMicrofacet m.kind)
    (hr : m.getInputValue "roughness" = .texture (some t)) :
    (writeMaterial m texIdx matIdxOf r0).1.nsmapidx = texIdx (some t) ∧
    (writeMaterial m texIdx matIdxOf r0).1.ns = 99/100 := by
  have he := writeMaterial_microfacet_eq m texIdx matIdxOf r0 hk
  constructor
  · rw [he, writeMaterialGeneral_nsmapidx]
    unfold writeMaterialRoughness
    rw [hr]
  · rw [he]
    exact writeMaterialGeneral_ns_of_not_float _ _ _
      (fun v hv => by rw [hr] at hv; cases hv)

theorem microfacet_roughness_texture_ns_fallback_witness :
    (writeMaterial mMfW texIdxW (fun n => (n : Int)) r0W).1.nsmapidx = texIdxW (some 4) ∧
    (writeMaterial mMfW texIdxW (fun n => (n : Int)) r0W).1.ns = 99/100 :=
  microfacet_roughness_texture_ns_fallback mMfW texIdxW (fun n => (n : Int)) r0W 4
    (by decide) (by rfl)

/-- Claim C10: for a `MultiBxdf` of kind `kLayered`, `WriteMaterial` writes
only the type tag into the record (the writer's switch has no `kLayered`
case and falls to the empty `default` branch) and clears the material's
dirty bit; every other field keeps the previous buffer contents. -/
theorem layered_writes_only_type_tag (m : MatData) (texIdx : Option Nat → Int)
    (matIdxOf : Nat → Int) (r0 : ClwMaterial)
    (hk : m.kind = .multi .kLayered) :
    writeMaterial m texIdx matIdxOf r0 =
      ({ r0 with mtype := .kLayered }, { m with dirty := false }) := by
  rcases m with ⟨k, ins, d⟩
  cases hk
  rfl

theorem layered_writes_only_type_tag_witness :
    writeMaterial mLayeredW texIdxW (fun n => (n : Int)) r0W =
      ({ r0W with mtype := .kLayered }, { mLayeredW with dirty := false }) :=
  layered_writes_only_type_tag mLayeredW texIdxW (fun n => (n : Int)) r0W rfl

theorem mem_insertSorted {x a : Nat} {l : List Nat} :
    a ∈ insertSorted x l ↔ a = x ∨ a ∈ l := by
  induction l with
  | nil => simp [insertSorted]
  | cons y ys ih =>
      unfold insertSorted
      by_cases h1 : x < y
      · simp [h1]
      · by_cases h2 : x = y
        · subst h2
          simp [h1]
        · simp only [if_neg h1, if_neg h2, List.mem_cons, ih]
          tauto

theorem insertSorted_sorted {x : Nat} {l : List Nat} (h : l.Sorted (· < ·)) :
    (insertSorted x l).Sorted (· < ·) := by
  induction l with
  | nil => simp [insertSorted]
  | cons y ys ih =>
      rw [List.sorted_cons] at h
      unfold insertSorted
      by_cases h1 : x < y
      · simp only [if_pos h1]
        rw [List.sorted_cons]
        refine ⟨?_, List.sorted_cons.mpr h⟩
        intro b hb
        rcases List.mem_cons.mp hb with hb | hb
        · omega
        · exact lt_trans h1 (h.1 b hb)
      · by_cases h2 : x = y
        · simp only [if_neg h1, if_pos h2]
          exact List.sorted_cons.mpr h
        · simp only [if_neg h1, if_neg h2]
          rw [List.sorted_cons]
          refine ⟨?_, ih h.2⟩
          intro b hb
          rcases mem_insertSorted.mp hb with hb | hb
          · omega
          · exact h.1 b hb

theorem natSetOf_sorted (l : List Nat) : (natSetOf l).Sorted (· < ·) := by
  suffices h : ∀ s : List Nat, s.Sorted (· < ·) →
      (l.foldl (fun s x => insertSorted x s) s).Sorted (· < ·) by
    exact h [] (by simp)
  induction l with
  | nil => intro s hs; exact hs
  | cons x xs ih => intro s hs; exact ih _ (insertSorted_sorted hs)

theorem mem_natSetOf {l : List Nat} {a : Nat} : a ∈ natSetOf l ↔ a ∈ l := by
  suffices h : ∀ s : List Nat,
      (a ∈ l.foldl (fun s x => insertSorted x s) s ↔ a ∈ s ∨ a ∈ l) by
    simpa using h []
  induction l with
  | nil => intro s; simp
  | cons x xs ih =>
      intro s
      rw [List.foldl_cons, ih, mem_insertSorted]
      simp
      tauto

theorem natSetOf_nodup (l : List Nat) : (natSetOf l).Nodup :=
  (natSetOf_sorted l).nodup

theorem mem_sceneMeshIds {ss : List ShapeRef} {i : Nat} :
    i ∈ sceneMeshIds ss ↔ ShapeRef.mesh i ∈ ss := by
  simp only [sceneMeshIds, List.mem_filterMap]
  constructor
  · rintro ⟨a, ha, hfa⟩
    cases a <;> simp_all
  · intro h
    exact ⟨_, h, rfl⟩

theorem mem_sceneInstIds {ss : List ShapeRef} {i : Nat} :
    i ∈ sceneInstIds ss ↔ ShapeRef.inst i ∈ ss := by
  simp only [sceneInstIds, List.mem_filterMap]
  constructor
  · rintro ⟨a, ha, hfa⟩
    cases a <;> simp_all
  · intro h
    exact ⟨_, h, rfl⟩

theorem mem_split_meshes {W : World} {ss : List ShapeRef} {i : Nat} :
    i ∈ (splitMeshesAndInstances W ss).meshes ↔ ShapeRef.mesh i ∈ ss := by
  simp [splitMeshesAndInstances, mem_natSetOf, mem_sceneMeshIds]

theorem mem_split_instances {W : World} {ss : List ShapeRef} {i : Nat} :
    i ∈ (splitMeshesAndInstances W ss).instances ↔ ShapeRef.inst i ∈ ss := by
  simp [splitMeshesAndInstances, mem_natSetOf, mem_sceneInstIds]

theorem mem_split_excluded {W : World} {ss : List ShapeRef} {b : Nat} :
    b ∈ (splitMeshesAndInstances W ss).excluded ↔
      (b ∉ (splitMeshesAndInstances W ss).meshes ∧
        ∃ j ∈ (splitMeshesAndInstances W ss).instances, W.instBase j = b) := by
  simp only [splitMeshesAndInstances, mem_natSetOf, List.mem_filter,
    List.mem_map, Bool.not_eq_eq_eq_not, Bool.not_true, decide_eq_false_iff_not]
  tauto

theorem foldl_serMesh_visitLog (W : World) (matIdxOf : Nat → Int)
    (l : List Nat) (st : SerState) :
    (l.foldl (serMesh W matIdxOf) st).visitLog = st.visitLog ++ l := by
  induction l generalizing st with
  | nil => simp
  | cons x xs ih => simp [ih, serMesh]

theorem foldl_serExcluded_visitLog (W : World) (l : List Nat) (st : SerState) :
    (l.foldl (serExcluded W) st).visitLog = st.visitLog ++ l := by
  induction l generalizing st with
  | nil => simp
  | cons x xs ih => simp [ih, serExcluded]

theorem foldl_serInst_visitLog (W : World) (matIdxOf : Nat → Int)
    (l : List Nat) (st : SerState) :
    (l.foldl (serInst W matIdxOf) st).visitLog = st.visitLog ++ l := by
  induction l generalizing st with
  | nil => simp
  | cons x xs ih => simp [ih, serInst]

/-- The serializer visits exactly `meshes`, then `excluded`, then
`instances`, in partition order. -/
theorem updateShapesSer_visitLog (W : World) (matIdxOf : Nat → Int)
    (ss : List ShapeRef) :
    (updateShapesSer W matIdxOf ss).visitLog =
      (splitMeshesAndInstances W ss).meshes ++
        (splitMeshesAndInstances W ss).excluded ++
        (splitMeshesAndInstances W ss).instances := by
  simp [updateShapesSer, updateShapesMid, foldl_serMesh_visitLog,
    foldl_serExcluded_visitLog, foldl_serInst_visitLog, serInit]

/-- `List.lookup` through a cons cell, with propositional condition. -/
theorem lookup_cons_store {α : Type} (k : Nat) (v : α) (s : Store α) (i : Nat) :
    List.lookup i ((k, v) :: s) = if i = k then some v else List.lookup i s := by
  by_cases h : i = k
  · simp [List.lookup, h]
  · have hbeq : (i == k) = false := by simp [h]
    simp [List.lookup, hbeq, h]

theorem foldl_serInst_shapeData (W : World) (f : Nat → Int) (l : List Nat)
    (st : SerState) : (l.foldl (serInst W f) st).shapeData = st.shapeData := by
  induction l generalizing st with
  | nil => rfl
  | cons x xs ih => rw [List.foldl_cons, ih]; rfl

theorem foldl_serInst_nv (W : World) (f : Nat → Int) (l : List Nat)
    (st : SerState) : (l.foldl (serInst W f) st).nv = st.nv := by
  induction l generalizing st with
  | nil => rfl
  | cons x xs ih => rw [List.foldl_cons, ih]; rfl

theorem foldl_serInst_nidx (W : World) (f : Nat → Int) (l : List Nat)
    (st : SerState) : (l.foldl (serInst W f) st).nidx = st.nidx := by
  induction l generalizing st with
  | nil => rfl
  | cons x xs ih => rw [List.foldl_cons, ih]; rfl

theorem foldl_serInst_recs_length (W : World) (f : Nat → Int) (l : List Nat)
    (st : SerState) :
    (l.foldl (serInst W f) st).recs.length = st.recs.length + l.length := by
  induction l generalizing st with
  | nil => rfl
  | cons x xs ih =>
      rw [List.foldl_cons, ih]
      dsimp only [serInst]
      simp
      omega

theorem foldl_serInst_matids_length (W : World) (f : Nat → Int) (l : List Nat)
    (st : SerState) :
    (l.foldl (serInst W f) st).matids.length =
      st.matids.length + (l.map (instMatCount W)).sum := by
  induction l generalizing st with
  | nil => simp
  | cons x xs ih =>
      rw [List.foldl_cons, ih]
      dsimp only [serInst]
      simp [instMatCount]
      omega

theorem foldl_serInst_recs_get_lt (W : World) (f : Nat → Int) (l : List Nat)
    (st : SerState) (k : Nat) (hk : k < st.recs.length) :
    (l.foldl (serInst W f) st).recs[k]? = st.recs[k]? := by
  induction l generalizing st with
  | nil => rfl
  | cons x xs ih =>
      rw [List.foldl_cons,
        ih (serInst W f st x) (by dsimp only [serInst]; simp; omega)]
      dsimp only [serInst]
      exact List.getElem?_append_left hk

theorem foldl_serInst_matids_ext (W : World) (f : Nat → Int) (l : List Nat)
    (st : SerState) :
    ∃ suf, (l.foldl (serInst W f) st).matids = st.matids ++ suf := by
  induction l generalizing st with
  | nil => exact ⟨[], by simp⟩
  | cons x xs ih =>
      obtain ⟨suf, hsuf⟩ := ih (serInst W f st x)
      refine ⟨List.replicate (instMatCount W x)
          (f ((W.instD x).material.getD defaultMaterialId)) ++ suf, ?_⟩
      rw [List.foldl_cons, hsuf]
      dsimp only [serInst]
      rw [List.append_assoc]
      rfl

/-- `shape_data` invariant through the mesh pass: every recorded base record
has `numprims` equal to the mesh's primitive count. -/
theorem foldl_serMesh_shapeData_numprims (W : World) (f : Nat → Int)
    (l : List Nat) (st : SerState)
    (hst : ∀ i r, List.lookup i st.shapeData = some r →
      r.numprims = (W.meshD i).numIndices / 3) :
    ∀ i r, List.lookup i ((l.foldl (serMesh W f) st)).shapeData = some r →
      r.numprims = (W.meshD i).numIndices / 3 := by
  induction l generalizing st with
  | nil => exact hst
  | cons x xs ih =>
      refine ih _ ?_
      intro i r hr
      dsimp only [serMesh] at hr
      rw [lookup_cons_store] at hr
      by_cases hix : i = x
      · rw [if_pos hix] at hr
        cases hr
        rw [hix]
      · rw [if_neg hix] at hr
        exact hst i r hr

/-- The same invariant through the excluded-mesh pass. -/
theorem foldl_serExcluded_shapeData_numprims (W : World) (l : List Nat)
    (st : SerState)
    (hst : ∀ i r, List.lookup i st.shapeData = some r →
      r.numprims = (W.meshD i).numIndices / 3) :
    ∀ i r, List.lookup i ((l.foldl (serExcluded W)) st).shapeData = some r →
      r.numprims = (W.meshD i).numIndices / 3 := by
  induction l generalizing st with
  | nil => exact hst
  | cons x xs ih =>
      refine ih _ ?_
      intro i r hr
      dsimp only [serExcluded] at hr
      rw [lookup_cons_store] at hr
      by_cases hix : i = x
      · rw [if_pos hix] at hr
        cases hr
        rw [hix]
      · rw [if_neg hix] at hr
        exact hst i r hr

theorem updateShapesMid_shapeData_numprims (W : World) (f : Nat → Int)
    (ss : List ShapeRef) (i : Nat) (r : ShapeRec)
    (h : List.lookup i (updateShapesMid W f ss).shapeData = some r) :
    r.numprims = (W.meshD i).numIndices / 3 := by
  refine foldl_serExcluded_shapeData_numprims W _ _ ?_ i r h
  refine foldl_serMesh_shapeData_numprims W f _ serInit ?_
  intro i r hr
  cases hr

/-- Claim C8: each serialized instance reuses the base mesh's record
(`numprims`, `startvtx`, `startidx` come from the `shape_data` entry `br`
computed for the base mesh; nothing is appended to the vertex/index pools),
while `start_material_idx` points to a freshly allocated region of
`numprims` entries all holding the instance's own material collector index
(default material if none), and the transform is the instance's own. -/
theorem instance_record_reuses_base (W : World) (matIdxOf : Nat → Int)
    (ss : List ShapeRef) (j i : Nat)
    (hj : (splitMeshesAndInstances W ss).instances[j]? = some i)
    (br : ShapeRec)
    (hbr : List.lookup (W.instD i).base
        (updateShapesMid W matIdxOf ss).shapeData = some br) :
    (updateShapesSer W matIdxOf ss).recs[(updateShapesMid W matIdxOf ss).recs.length + j]? =
      some { br with
        start_material_idx := (updateShapesMid W matIdxOf ss).matids.length +
          (((splitMeshesAndInstances W ss).instances.take j).map (instMatCount W)).sum
        transform := (W.instD i).transform } ∧
    ((updateShapesSer W matIdxOf ss).matids.drop
        ((updateShapesMid W matIdxOf ss).matids.length +
          (((splitMeshesAndInstances W ss).instances.take j).map (instMatCount W)).sum)).take
        (instMatCount W i) =
      List.replicate (instMatCount W i)
        (matIdxOf ((W.instD i).material.getD defaultMaterialId)) ∧
    br.numprims = instMatCount W i ∧
    (updateShapesSer W matIdxOf ss).nv = (updateShapesMid W matIdxOf ss).nv ∧
    (updateShapesSer W matIdxOf ss).nidx = (updateShapesMid W matIdxOf ss).nidx := by
  have hnp : br.numprims = instMatCount W i :=
    updateShapesMid_shapeData_numprims W matIdxOf ss _ br hbr
  set sp := splitMeshesAndInstances W ss with hsp
  set mid := updateShapesMid W matIdxOf ss with hmid
  set L := sp.instances with hL
  have hjlen : j < L.length := by
    rcases Nat.lt_or_ge j L.length with h | h
    · exact h
    · rw [List.getElem?_eq_none h] at hj
      cases hj
  have hLi : L[j] = i := by
    rw [List.getElem?_eq_getElem hjlen] at hj
    exact Option.some.inj hj
  have htl : (L.take j).length = j := by
    rw [List.length_take]
    omega
  set stj := (L.take j).foldl (serInst W matIdxOf) mid with hstj
  have hser : updateShapesSer W matIdxOf ss =
      (L.drop (j + 1)).foldl (serInst W matIdxOf) (serInst W matIdxOf stj i) := by
    show L.foldl (serInst W matIdxOf) mid = _
    conv_lhs => rw [← List.take_append_drop j L]
    rw [List.foldl_append, List.drop_eq_getElem_cons hjlen, hLi, List.foldl_cons]
  have hsd : stj.shapeData = mid.shapeData :=
    foldl_serInst_shapeData W matIdxOf (L.take j) mid
  have hlenr : stj.recs.length = mid.recs.length + j := by
    rw [hstj, foldl_serInst_recs_length, htl]
  have hlenm : stj.matids.length =
      mid.matids.length + ((L.take j).map (instMatCount W)).sum := by
    rw [hstj, foldl_serInst_matids_length]
  have hstep : serInst W matIdxOf stj i =
      { stj with
        matids := stj.matids ++ List.replicate (instMatCount W i)
          (matIdxOf ((W.instD i).material.getD defaultMaterialId))
        recs := stj.recs ++ [{ br with
          start_material_idx := stj.matids.length
          transform := (W.instD i).transform }]
        visitLog := stj.visitLog ++ [i] } := by
    dsimp only [serInst]
    rw [hsd, hbr]
    rfl
  refine ⟨?_, ?_, hnp, ?_, ?_⟩
  · rw [hser, foldl_serInst_recs_get_lt]
    · rw [hstep]
      show (stj.recs ++ [_])[mid.recs.length + j]? = _
      rw [show mid.recs.length + j = stj.recs.length from hlenr.symm,
        List.getElem?_concat_length, ← hlenm]
    · rw [hstep]
      show mid.recs.length + j < (stj.recs ++ [_]).length
      simp only [List.length_append, List.length_singleton, hlenr]
      omega
  · obtain ⟨suf, hsuf⟩ :=
      foldl_serInst_matids_ext W matIdxOf (L.drop (j + 1)) (serInst W matIdxOf stj i)
    have hmat2 : (updateShapesSer W matIdxOf ss).matids =
        stj.matids ++ (List.replicate (instMatCount W i)
          (matIdxOf ((W.instD i).material.getD defaultMaterialId)) ++ suf) := by
      rw [hser, hsuf, hstep, List.append_assoc]
    rw [hmat2, ← hlenm, List.drop_left]
    exact List.take_left' (List.length_replicate _ _)
  · rw [hser, foldl_serInst_nv]
    show stj.nv = mid.nv
    exact foldl_serInst_nv W matIdxOf (L.take j) mid
  · rw [hser, foldl_serInst_nidx]
    show stj.nidx = mid.nidx
    exact foldl_serInst_nidx W matIdxOf (L.take j) mid

theorem instance_record_reuses_base_witness :
    (updateShapesSer w8 (fun n => (n : Int)) w8.scene.shapes).recs[(updateShapesMid w8 (fun n => (n : Int)) w8.scene.shapes).recs.length + 0]? =
      some { brW8 with
        start_material_idx := (updateShapesMid w8 (fun n => (n : Int)) w8.scene.shapes).matids.length +
          (((splitMeshesAndInstances w8 w8.scene.shapes).instances.take 0).map
            (instMatCount w8)).sum
        transform := (w8.instD 6).transform } ∧
    ((updateShapesSer w8 (fun n => (n : Int)) w8.scene.shapes).matids.drop
        ((updateShapesMid w8 (fun n => (n : Int)) w8.scene.shapes).matids.length +
          (((splitMeshesAndInstances w8 w8.scene.shapes).instances.take 0).map
            (instMatCount w8)).sum)).take (instMatCount w8 6) =
      List.replicate (instMatCount w8 6)
        ((fun n => (n : Int)) ((w8.instD 6).material.getD defaultMaterialId)) ∧
    brW8.numprims = instMatCount w8 6 ∧
    (updateShapesSer w8 (fun n => (n : Int)) w8.scene.shapes).nv =
      (updateShapesMid w8 (fun n => (n : Int)) w8.scene.shapes).nv ∧
    (updateShapesSer w8 (fun n => (n : Int)) w8.scene.shapes).nidx =
      (updateShapesMid w8 (fun n => (n : Int)) w8.scene.shapes).nidx :=
  instance_record_reuses_base w8 (fun n => (n : Int)) w8.scene.shapes 0 6
    (by decide) brW8 (by decide)

/-- Claim C4 counterexample: `SplitMeshesAndInstances` does NOT list the
meshes in shape-iterator order.  The sets are `std::set`s over pointers, so
iteration is in identity order: with iterator order `[5, 3]` the partition
yields `[3, 5]`. -/
theorem split_meshes_not_iterator_order :
    (splitMeshesAndInstances w4 w4.scene.shapes).meshes ≠
      sceneMeshIds w4.scene.shapes := by
  decide

/-- Claim C4 (amended): the partition produces three disjoint sets —
`meshes` contains exactly the non-instance shapes of the iterator,
`instances` exactly the instance shapes, and `excluded` exactly the instance
base meshes not in `meshes`; each set is iterated in increasing identity
(`std::set`) order rather than iterator order; serialization visits them in
the order meshes, excluded meshes, instances.  Disjointness between mesh and
instance identities uses the fact that distinct C++ objects have distinct
addresses (`hdisj`). -/
theorem split_partition_spec (W : World) (ss : List ShapeRef)
    (hdisj : ∀ j, ShapeRef.inst j ∈ ss →
      (ShapeRef.mesh j ∉ ss ∧ ∀ k, ShapeRef.inst k ∈ ss → W.instBase k ≠ j)) :
    (∀ i, i ∈ (splitMeshesAndInstances W ss).meshes ↔ ShapeRef.mesh i ∈ ss) ∧
    (∀ i, i ∈ (splitMeshesAndInstances W ss).instances ↔ ShapeRef.inst i ∈ ss) ∧
    (∀ b, b ∈ (splitMeshesAndInstances W ss).excluded ↔
      (b ∉ (splitMeshesAndInstances W ss).meshes ∧
        ∃ j ∈ (splitMeshesAndInstances W ss).instances, W.instBase j = b)) ∧
    (∀ i, i ∈ (splitMeshesAndInstances W ss).meshes →
      i ∉ (splitMeshesAndInstances W ss).instances) ∧
    (∀ b, b ∈ (splitMeshesAndInstances W ss).excluded →
      b ∉ (splitMeshesAndInstances W ss).meshes ∧
      b ∉ (splitMeshesAndInstances W ss).instances) ∧
    (splitMeshesAndInstances W ss).meshes.Sorted (· < ·) ∧
    (splitMeshesAndInstances W ss).instances.Sorted (· < ·) ∧
    (splitMeshesAndInstances W ss).excluded.Sorted (· < ·) ∧
    (∀ matIdxOf, (updateShapesSer W matIdxOf ss).visitLog =
      (splitMeshesAndInstances W ss).meshes ++
        (splitMeshesAndInstances W ss).excluded ++
        (splitMeshesAndInstances W ss).instances) := by
  refine ⟨fun i => mem_split_meshes, fun i => mem_split_instances,
    fun b => mem_split_excluded, ?_, ?_, ?_, ?_, ?_,
    fun f => updateShapesSer_visitLog W f ss⟩
  · intro i him hii
    exact (hdisj i (mem_split_instances.mp hii)).1 (mem_split_meshes.mp him)
  · intro b hb
    obtain ⟨hnm, j, hj, hbase⟩ := mem_split_excluded.mp hb
    refine ⟨hnm, fun hbi => ?_⟩
    exact (hdisj b (mem_split_instances.mp hbi)).2 j
      (mem_split_instances.mp hj) hbase
  · exact natSetOf_sorted _
  · exact natSetOf_sorted _
  · exact natSetOf_sorted _

theorem split_partition_spec_witness :
    (∀ i, i ∈ (splitMeshesAndInstances w4b w4b.scene.shapes).meshes ↔
      ShapeRef.mesh i ∈ w4b.scene.shapes) ∧
    (∀ i, i ∈ (splitMeshesAndInstances w4b w4b.scene.shapes).instances ↔
      ShapeRef.inst i ∈ w4b.scene.shapes) ∧
    (∀ b, b ∈ (splitMeshesAndInstances w4b w4b.scene.shapes).excluded ↔
      (b ∉ (splitMeshesAndInstances w4b w4b.scene.shapes).meshes ∧
        ∃ j ∈ (splitMeshesAndInstances w4b w4b.scene.shapes).instances,
          w4b.instBase j = b)) ∧
    (∀ i, i ∈ (splitMeshesAndInstances w4b w4b.scene.shapes).meshes →
      i ∉ (splitMeshesAndInstances w4b w4b.scene.shapes).instances) ∧
    (∀ b, b ∈ (splitMeshesAndInstances w4b w4b.scene.shapes).excluded →
      b ∉ (splitMeshesAndInstances w4b w4b.scene.shapes).meshes ∧
      b ∉ (splitMeshesAndInstances w4b w4b.scene.shapes).instances) ∧
    (splitMeshesAndInstances w4b w4b.scene.shapes).meshes.Sorted (· < ·) ∧
    (splitMeshesAndInstances w4b w4b.scene.shapes).instances.Sorted (· < ·) ∧
    (splitMeshesAndInstances w4b w4b.scene.shapes).excluded.Sorted (· < ·) ∧
    (∀ matIdxOf, (updateShapesSer w4b matIdxOf w4b.scene.shapes).visitLog =
      (splitMeshesAndInstances w4b w4b.scene.shapes).meshes ++
        (splitMeshesAndInstances w4b w4b.scene.shapes).excluded ++
        (splitMeshesAndInstances w4b w4b.scene.shapes).instances) :=
  split_partition_spec w4b w4b.scene.shapes (by
    intro j hj
    simp only [w4b, List.mem_cons, List.not_mem_nil, or_false] at hj
    rcases hj with hj | hj
    · cases hj
    · cases hj
      constructor
      · decide
      · intro k hk
        simp only [w4b, List.mem_cons, List.not_mem_nil, or_false] at hk
        rcases hk with hk | hk
        · cases hk
        · cases hk
          decide)

theorem foldl_isectMeshStep_ids (W : World) (l : List Nat) (st : IsectState) :
    (l.foldl (isectMeshStep W) st).nextId = st.nextId + l.length ∧
    (l.foldl (isectMeshStep W) st).isect.map (fun h => h.hid) =
      st.isect.map (fun h => h.hid) ++ List.range' st.nextId l.length := by
  induction l generalizing st with
  | nil => simp
  | cons x xs ih =>
      rw [List.foldl_cons]
      obtain ⟨h1, h2⟩ := ih (isectMeshStep W st x)
      refine ⟨by rw [h1]; dsimp only [isectMeshStep]; simp only [List.length_cons]; omega, ?_⟩
      rw [h2]
      simp only [List.length_cons, List.range'_succ]
      dsimp only [isectMeshStep]
      simp

theorem foldl_isectExcludedStep_ids (W : World) (l : List Nat)
    (st : IsectState) :
    (l.foldl (isectExcludedStep W) st).nextId = st.nextId + l.length ∧
    (l.foldl (isectExcludedStep W) st).isect.map (fun h => h.hid) =
      st.isect.map (fun h => h.hid) ++ List.range' st.nextId l.length := by
  induction l generalizing st with
  | nil => simp
  | cons x xs ih =>
      rw [List.foldl_cons]
      obtain ⟨h1, h2⟩ := ih (isectExcludedStep W st x)
      refine ⟨by rw [h1]; dsimp only [isectExcludedStep]; simp only [List.length_cons]; omega, ?_⟩
      rw [h2]
      simp only [List.length_cons, List.range'_succ]
      dsimp only [isectExcludedStep]
      simp

theorem foldl_isectInstStep_ids (W : World) (l : List Nat) (st : IsectState) :
    (l.foldl (isectInstStep W) st).nextId = st.nextId + l.length ∧
    (l.foldl (isectInstStep W) st).isect.map (fun h => h.hid) =
      st.isect.map (fun h => h.hid) ++ List.range' st.nextId l.length := by
  induction l generalizing st with
  | nil => simp
  | cons x xs ih =>
      rw [List.foldl_cons]
      obtain ⟨h1, h2⟩ := ih (isectInstStep W st x)
      refine ⟨by rw [h1]; dsimp only [isectInstStep]; simp only [List.length_cons]; omega, ?_⟩
      rw [h2]
      simp only [List.length_cons, List.range'_succ]
      dsimp only [isectInstStep]
      simp

theorem foldl_isectMeshStep_srcs (W : World) (l : List Nat) (st : IsectState) :
    (l.foldl (isectMeshStep W) st).isect.map (fun h => h.src) =
      st.isect.map (fun h => h.src) ++ l.map HandleSrc.mesh := by
  induction l generalizing st with
  | nil => simp
  | cons x xs ih =>
      rw [List.foldl_cons, ih]
      dsimp only [isectMeshStep]
      simp

theorem foldl_isectExcludedStep_srcs (W : World) (l : List Nat)
    (st : IsectState) :
    (l.foldl (isectExcludedStep W) st).isect.map (fun h => h.src) =
      st.isect.map (fun h => h.src) ++ l.map HandleSrc.excluded := by
  induction l generalizing st with
  | nil => simp
  | cons x xs ih =>
      rw [List.foldl_cons, ih]
      dsimp only [isectExcludedStep]
      simp

theorem foldl_isectInstStep_srcs (W : World) (l : List Nat) (st : IsectState) :
    (l.foldl (isectInstStep W) st).isect.map (fun h => h.src) =
      st.isect.map (fun h => h.src) ++ l.map HandleSrc.inst := by
  induction l generalizing st with
  | nil => simp
  | cons x xs ih =>
      rw [List.foldl_cons, ih]
      dsimp only [isectInstStep]
      simp

theorem isectMeshStep_inv (W : World) (st : IsectState) (x : Nat)
    (h : HandleInv st.isect st.visible) :
    HandleInv (isectMeshStep W st x).isect (isectMeshStep W st x).visible := by
  obtain ⟨h1, h2, h3⟩ := h
  dsimp only [isectMeshStep, HandleInv]
  refine ⟨?_, ?_, ?_⟩
  · intro a ha
    rcases List.mem_append.mp ha with ha | ha
    · exact List.mem_append_left _ (h1 ha)
    · exact List.mem_append_right _ ha
  · intro a ha
    rcases List.mem_append.mp ha with ha | ha
    · exact h2 a ha
    · rcases List.mem_singleton.mp ha with rfl
      exact Or.inl ⟨x, rfl⟩
  · intro a ha hsrc
    rcases List.mem_append.mp ha with ha | ha
    · exact List.mem_append_left _ (h3 a ha hsrc)
    · exact List.mem_append_right _ ha

theorem isectExcludedStep_inv (W : World) (st : IsectState) (x : Nat)
    (h : HandleInv st.isect st.visible) :
    HandleInv (isectExcludedStep W st x).isect
      (isectExcludedStep W st x).visible := by
  obtain ⟨h1, h2, h3⟩ := h
  dsimp only [isectExcludedStep, HandleInv]
  refine ⟨?_, h2, ?_⟩
  · intro a ha
    exact List.mem_append_left _ (h1 ha)
  · intro a ha hsrc
    rcases List.mem_append.mp ha with ha | ha
    · exact h3 a ha hsrc
    · rcases List.mem_singleton.mp ha with rfl
      rcases hsrc with ⟨i, hi⟩ | ⟨i, hi⟩ <;> simp at hi

theorem isectInstStep_inv (W : World) (st : IsectState) (x : Nat)
    (h : HandleInv st.isect st.visible) :
    HandleInv (isectInstStep W st x).isect (isectInstStep W st x).visible := by
  obtain ⟨h1, h2, h3⟩ := h
  dsimp only [isectInstStep, HandleInv]
  refine ⟨?_, ?_, ?_⟩
  · intro a ha
    rcases List.mem_append.mp ha with ha | ha
    · exact List.mem_append_left _ (h1 ha)
    · exact List.mem_append_right _ ha
  · intro a ha
    rcases List.mem_append.mp ha with ha | ha
    · exact h2 a ha
    · rcases List.mem_singleton.mp ha with rfl
      exact Or.inr ⟨x, rfl⟩
  · intro a ha hsrc
    rcases List.mem_append.mp ha with ha | ha
    · exact List.mem_append_left _ (h3 a ha hsrc)
    · exact List.mem_append_right _ ha

theorem foldl_isectMeshStep_inv (W : World) (l : List Nat) (st : IsectState)
    (h : HandleInv st.isect st.visible) :
    HandleInv (l.foldl (isectMeshStep W) st).isect
      (l.foldl (isectMeshStep W) st).visible := by
  induction l generalizing st with
  | nil => exact h
  | cons x xs ih => exact ih _ (isectMeshStep_inv W st x h)

theorem foldl_isectExcludedStep_inv (W : World) (l : List Nat)
    (st : IsectState) (h : HandleInv st.isect st.visible) :
    HandleInv (l.foldl (isectExcludedStep W) st).isect
      (l.foldl (isectExcludedStep W) st).visible := by
  induction l generalizing st with
  | nil => exact h
  | cons x xs ih => exact ih _ (isectExcludedStep_inv W st x h)

theorem foldl_isectInstStep_inv (W : World) (l : List Nat) (st : IsectState)
    (h : HandleInv st.isect st.visible) :
    HandleInv (l.foldl (isectInstStep W) st).isect
      (l.foldl (isectInstStep W) st).visible := by
  induction l generalizing st with
  | nil => exact h
  | cons x xs ih => exact ih _ (isectInstStep_inv W st x h)

/-- `range'` concatenation with step 1. -/
theorem range'_append_one (s m n : Nat) :
    List.range' s m ++ List.range' (s + m) n = List.range' s (m + n) := by
  have := List.range'_append s m n 1
  simpa [Nat.add_comm] using this

/-- Claim C2: after every intersector rebuild, the handle ids are exactly
`{1..N}` with `N = |meshes| + |excluded| + |instances|`, assigned
monotonically from 1 in the order meshes, excluded meshes, instances; in
particular all ids are unique and positive. -/
theorem intersector_ids_are_one_to_N (W : World) (ss : List ShapeRef)
    (out : IsectOut) (h : updateIntersector W ss = some out) :
    out.isect_shapes.map (fun hd => hd.hid) =
      List.range' 1 ((splitMeshesAndInstances W ss).meshes.length +
        (splitMeshesAndInstances W ss).excluded.length +
        (splitMeshesAndInstances W ss).instances.length) ∧
    out.isect_shapes.map (fun hd => hd.src) =
      (splitMeshesAndInstances W ss).meshes.map HandleSrc.mesh ++
        (splitMeshesAndInstances W ss).excluded.map HandleSrc.excluded ++
        (splitMeshesAndInstances W ss).instances.map HandleSrc.inst ∧
    (out.isect_shapes.map (fun hd => hd.hid)).Nodup ∧
    (∀ hd ∈ out.isect_shapes, 0 < hd.hid) := by
  unfold updateIntersector at h
  split at h
  · cases h
  · obtain rfl := Option.some.inj h
    dsimp only
    set sp := splitMeshesAndInstances W ss with hsp
    set st1 := sp.meshes.foldl (isectMeshStep W)
      { nextId := 1, isect := [], visible := [] } with hst1
    set st2 := sp.excluded.foldl (isectExcludedStep W) st1 with hst2
    set st3 := sp.instances.foldl (isectInstStep W) st2 with hst3
    obtain ⟨hn1, hi1⟩ := foldl_isectMeshStep_ids W sp.meshes
      { nextId := 1, isect := [], visible := [] }
    obtain ⟨hn2, hi2⟩ := foldl_isectExcludedStep_ids W sp.excluded st1
    obtain ⟨hn3, hi3⟩ := foldl_isectInstStep_ids W sp.instances st2
    rw [← hst1] at hn1 hi1
    rw [← hst2] at hn2 hi2
    rw [← hst3] at hn3 hi3
    simp only [List.map_nil, List.nil_append] at hi1
    have hids : st3.isect.map (fun hd => hd.hid) =
        List.range' 1 (sp.meshes.length + sp.excluded.length +
          sp.instances.length) := by
      rw [hi3, hi2, hi1, hn2, hn1]
      dsimp only
      rw [range'_append_one,
        show 1 + sp.meshes.length + sp.excluded.length =
          1 + (sp.meshes.length + sp.excluded.length) by omega,
        range'_append_one]
    refine ⟨hids, ?_, ?_, ?_⟩
    · have hs1 := foldl_isectMeshStep_srcs W sp.meshes
        { nextId := 1, isect := [], visible := [] }
      have hs2 := foldl_isectExcludedStep_srcs W sp.excluded st1
      have hs3 := foldl_isectInstStep_srcs W sp.instances st2
      rw [← hst1] at hs1
      rw [← hst2] at hs2
      rw [← hst3] at hs3
      simp only [List.map_nil, List.nil_append] at hs1
      rw [hs3, hs2, hs1]
    · rw [hids]
      exact List.nodup_range' _ _
    · intro hd hmem
      have : hd.hid ∈ st3.isect.map (fun hd => hd.hid) :=
        List.mem_map_of_mem _ hmem
      rw [hids] at this
      have := List.mem_range'_1.mp this
      omega

/-- Claim C7: `visible_shapes ⊆ isect_shapes`; every mesh or instance handle
is in both lists, every excluded-mesh handle is only in `isect_shapes` and
never in `visible_shapes`; `ReloadIntersector` attaches exactly the visible
handles. -/
theorem visible_shapes_subset_isect (W : World) (ss : List ShapeRef)
    (out : IsectOut) (h : updateIntersector W ss = some out) :
    out.visible_shapes ⊆ out.isect_shapes ∧
    (∀ hd ∈ out.isect_shapes,
      ((∃ i, hd.src = HandleSrc.mesh i) ∨ (∃ i, hd.src = HandleSrc.inst i)) →
        hd ∈ out.visible_shapes) ∧
    (∀ hd ∈ out.isect_shapes, (∃ i, hd.src = HandleSrc.excluded i) →
        hd ∉ out.visible_shapes) ∧
    reloadIntersector out = out.visible_shapes := by
  have hinv : HandleInv out.isect_shapes out.visible_shapes := by
    unfold updateIntersector at h
    split at h
    · cases h
    · obtain rfl := Option.some.inj h
      dsimp only
      have hinit : HandleInv ([] : List RRHandle) [] :=
        ⟨List.nil_subset _, fun a ha => absurd ha (List.not_mem_nil a),
         fun a ha => absurd ha (List.not_mem_nil a)⟩
      exact foldl_isectInstStep_inv W _ _
        (foldl_isectExcludedStep_inv W _ _
          (foldl_isectMeshStep_inv W _ _ hinit))
  obtain ⟨h1, h2, h3⟩ := hinv
  refine ⟨h1, h3, ?_, rfl⟩
  intro hd hmem hexc hvis
  rcases h2 hd hvis with ⟨i, hi⟩ | ⟨i, hi⟩ <;>
    (obtain ⟨k, hk⟩ := hexc; rw [hk] at hi; cases hi)

theorem intersector_ids_are_one_to_N_witness :
    outW8.isect_shapes.map (fun hd => hd.hid) =
      List.range' 1 ((splitMeshesAndInstances w8 w8.scene.shapes).meshes.length +
        (splitMeshesAndInstances w8 w8.scene.shapes).excluded.length +
        (splitMeshesAndInstances w8 w8.scene.shapes).instances.length) ∧
    outW8.isect_shapes.map (fun hd => hd.src) =
      (splitMeshesAndInstances w8 w8.scene.shapes).meshes.map HandleSrc.mesh ++
        (splitMeshesAndInstances w8 w8.scene.shapes).excluded.map
          HandleSrc.excluded ++
        (splitMeshesAndInstances w8 w8.scene.shapes).instances.map
          HandleSrc.inst ∧
    (outW8.isect_shapes.map (fun hd => hd.hid)).Nodup ∧
    (∀ hd ∈ outW8.isect_shapes, 0 < hd.hid) :=
  intersector_ids_are_one_to_N w8 w8.scene.shapes outW8 (by decide)

theorem visible_shapes_subset_isect_witness :
    outW8.visible_shapes ⊆ outW8.isect_shapes ∧
    (∀ hd ∈ outW8.isect_shapes,
      ((∃ i, hd.src = HandleSrc.mesh i) ∨ (∃ i, hd.src = HandleSrc.inst i)) →
        hd ∈ outW8.visible_shapes) ∧
    (∀ hd ∈ outW8.isect_shapes, (∃ i, hd.src = HandleSrc.excluded i) →
        hd ∉ outW8.visible_shapes) ∧
    reloadIntersector outW8 = outW8.visible_shapes :=
  visible_shapes_subset_isect w8 w8.scene.shapes outW8 (by decide)

theorem envFold_eq_lastIblPos (W : World) (lids : List Nat) :
    envFold W lids = (lastIblPos W lids).elim (-1) (fun j => (j : Int)) := by
  suffices h : ∀ (n : Nat) (e : Int),
      (lids.foldl (fun (acc : Nat × Int) lid =>
        let written := acc.1 + 1
        (written, if W.isIbl lid then ((written : Int) - 1) else acc.2))
        (n, e)).2 =
      (lastIblPos W lids).elim e (fun j => ((n + j : Nat) : Int)) by
    simpa [envFold] using h 0 (-1)
  induction lids with
  | nil =>
      intro n e
      rfl
  | cons x xs ih =>
      intro n e
      rw [List.foldl_cons]
      dsimp only
      rw [ih]
      have hcons : lastIblPos W (x :: xs) =
          match lastIblPos W xs with
          | some j => some (j + 1)
          | none => if W.isIbl x then some 0 else none := rfl
      rw [hcons]
      cases hxs : lastIblPos W xs with
      | some j =>
          simp only [Option.elim]
          push_cast
          ring
      | none =>
          by_cases hx : W.isIbl x
          · simp only [Option.elim, hx, if_true]
            push_cast
            omega
          · simp [hx]

/-- Claim C6: after every lights rebuild (`UpdateLights`), `envmapidx`
equals the 0-based position in the lights buffer of the last IBL light
encountered in light-iterator order, or `-1` when the scene has no IBL
light. -/
theorem envmapidx_is_last_ibl (W : World) (c : ClwSceneRec) :
    (updateLights W c).2.envmapidx =
      (lastIblPos W W.scene.lights).elim (-1) (fun j => (j : Int)) := by
  show envFold W W.scene.lights = _
  exact envFold_eq_lastIblPos W W.scene.lights

theorem storeSet_cons {α : Type} (pk : Nat) (pv : α) (ps : Store α) (k : Nat)
    (f : α → α) :
    storeSet ((pk, pv) :: ps) k f =
      (if pk = k then (pk, f pv) else (pk, pv)) :: storeSet ps k f := rfl

theorem lookup_storeSet {α : Type} (s : Store α) (k : Nat) (f : α → α)
    (i : Nat) :
    List.lookup i (storeSet s k f) =
      if i = k then (List.lookup i s).map f else List.lookup i s := by
  induction s with
  | nil => simp [storeSet]
  | cons p ps ih =>
      rcases p with ⟨pk, pv⟩
      by_cases hpk : pk = k
      · subst hpk
        by_cases hik : i = pk
        · subst hik
          simp [storeSet_cons, lookup_cons_store, ih]
        · simp [storeSet_cons, lookup_cons_store, hik, ih]
      · by_cases hik : i = pk
        · subst hik
          simp [storeSet_cons, lookup_cons_store, hpk, ih]
        · simp [storeSet_cons, lookup_cons_store, hpk, hik, ih]

/-- Clean entries stay clean through a fold of dirty-clearing writes. -/
theorem lookup_clearFold_pres {α : Type} (dirt : α → Bool) (clr : α → α)
    (hclr : ∀ d, dirt (clr d) = false) (ks : List Nat) (s : Store α)
    (i : Nat)
    (hs : ∀ d, List.lookup i s = some d → dirt d = false) :
    ∀ d, List.lookup i (ks.foldl (fun s k => storeSet s k clr) s) = some d →
      dirt d = false := by
  induction ks generalizing s with
  | nil => exact hs
  | cons k ks ih =>
      rw [List.foldl_cons]
      refine ih _ ?_
      intro d hd
      rw [lookup_storeSet] at hd
      by_cases hik : i = k
      · rw [if_pos hik] at hd
        cases hlk : List.lookup i s with
        | none => rw [hlk] at hd; cases hd
        | some d0 =>
            rw [hlk] at hd
            cases hd
            exact hclr d0
      · rw [if_neg hik] at hd
        exact hs d hd

/-- After a fold of dirty-clearing writes over `ks`, every entry keyed in
`ks` is clean. -/
theorem lookup_clearFold_of_mem {α : Type} (dirt : α → Bool) (clr : α → α)
    (hclr : ∀ d, dirt (clr d) = false) (ks : List Nat) (s : Store α)
    (i : Nat) (hi : i ∈ ks) :
    ∀ d, List.lookup i (ks.foldl (fun s k => storeSet s k clr) s) = some d →
      dirt d = false := by
  induction ks generalizing s with
  | nil => cases hi
  | cons k ks ih =>
      rw [List.foldl_cons]
      by_cases hik : i ∈ ks
      · exact ih (storeSet s k clr) hik
      · have hik2 : i = k := by
          rcases List.mem_cons.mp hi with h | h
          · exact h
          · exact absurd h hik
        refine lookup_clearFold_pres dirt clr hclr ks _ i ?_
        intro d hd
        rw [lookup_storeSet, if_pos hik2] at hd
        cases hlk : List.lookup i s with
        | none => rw [hlk] at hd; cases hd
        | some d0 =>
            rw [hlk] at hd
            cases hd
            exact hclr d0

theorem compileHitTail_err (T : Tracker) (W : World) (mats texs : List Nat)
    (sid : Nat) (ps : List BuildPass) (c : ClwSceneRec) :
    (compileHitTail T W mats texs sid ps c).err = none := rfl

theorem mem_ite_singleton {p q : BuildPass} {c : Prop} [Decidable c]
    (h : p ∈ (if c then [q] else [])) : p = q := by
  revert h
  split
  · simp
  · simp

theorem mem_ite_singleton_flip {p q : BuildPass} {c : Prop} [Decidable c]
    (h : p ∈ (if c then [] else [q])) : p = q := by
  revert h
  split
  · simp
  · simp

theorem compileHitTail_mem (T : Tracker) (W : World) (mats texs : List Nat)
    (sid : Nat) (ps : List BuildPass) (c : ClwSceneRec) (p : BuildPass)
    (hp1 : p ≠ BuildPass.materials) (hp2 : p ≠ BuildPass.textures)
    (hp3 : p ≠ BuildPass.reload) :
    p ∈ (compileHitTail T W mats texs sid ps c).passes ↔ p ∈ ps := by
  unfold compileHitTail
  dsimp only
  simp only [List.mem_append]
  constructor
  · rintro (((h | h) | h) | h)
    · exact h
    · exact absurd (mem_ite_singleton h) hp1
    · exact absurd (mem_ite_singleton h) hp2
    · exact absurd (mem_ite_singleton_flip h) hp3
  · intro h
    exact Or.inl (Or.inl (Or.inl h))

/-- Claim C9: for a cached scene whose dirty flags are exactly `{kShapes}`
and whose camera and lights are individually clean, the compile call runs
`UpdateShapes` (recreating the shapes buffers and the material-ids buffer)
and recreates and reloads the intersector handles, and runs neither
`UpdateCamera` nor `UpdateLights`. -/
theorem dirty_shapes_rebuilds_only_shapes (T : Tracker) (W : World)
    (c0 : ClwSceneRec)
    (hc : List.lookup W.scene.sid T.cache = some c0)
    (hcam : W.scene.camera = true)
    (hcamClean : W.cameraDirty = false)
    (hlightsNe : W.scene.lights.isEmpty = false)
    (hlightsClean : W.scene.lights.any (W.lightDirty) = false)
    (hshapesNe : W.scene.shapes.isEmpty = false)
    (hflags : W.scene.dirtyFlags =
      { camera := false, lights := false, shapes := true }) :
    (compile T W).err = none ∧
    BuildPass.shapes ∈ (compile T W).passes ∧
    BuildPass.intersector ∈ (compile T W).passes ∧
    BuildPass.camera ∉ (compile T W).passes ∧
    BuildPass.lights ∉ (compile T W).passes := by
  obtain ⟨io, hio⟩ : ∃ io, updateIntersector (updateShapesWorld W)
      W.scene.shapes = some io := by
    unfold updateIntersector
    rw [if_neg]
    · exact ⟨_, rfl⟩
    · show ¬W.scene.shapes.isEmpty = true
      rw [hshapesNe]
      simp
  have hmain : compile T W =
      compileHitTail T (updateShapesWorld W) (collectMats W)
        (collectTexs W (collectMats W)) W.scene.sid
        [BuildPass.shapes, BuildPass.intersector, BuildPass.reload]
        (reloadC (updateIntersectorC c0 io)) := by
    simp [compile, hc, compileHit, hcam, hflags, hcamClean, hlightsNe,
      hlightsClean, hshapesNe, hio]
  rw [hmain]
  refine ⟨compileHitTail_err _ _ _ _ _ _ _, ?_, ?_, ?_, ?_⟩
  · rw [compileHitTail_mem _ _ _ _ _ _ _ _
      (by intro h; cases h) (by intro h; cases h) (by intro h; cases h)]
    simp
  · rw [compileHitTail_mem _ _ _ _ _ _ _ _
      (by intro h; cases h) (by intro h; cases h) (by intro h; cases h)]
    simp
  · rw [compileHitTail_mem _ _ _ _ _ _ _ _
      (by intro h; cases h) (by intro h; cases h) (by intro h; cases h)]
    simp
  · rw [compileHitTail_mem _ _ _ _ _ _ _ _
      (by intro h; cases h) (by intro h; cases h) (by intro h; cases h)]
    simp

theorem dirty_shapes_rebuilds_only_shapes_witness :
    (compile t9 w9).err = none ∧
    BuildPass.shapes ∈ (compile t9 w9).passes ∧
    BuildPass.intersector ∈ (compile t9 w9).passes ∧
    BuildPass.camera ∉ (compile t9 w9).passes ∧
    BuildPass.lights ∉ (compile t9 w9).passes :=
  dirty_shapes_rebuilds_only_shapes t9 w9 ClwSceneRec.empty rfl rfl rfl rfl
    (by decide) rfl rfl

/-- Claim C3 (amended): on a compile of a scene that is already in the
cache, with shapes and lights but no camera, the call fails with the "No
camera in the scene" error before any buffer is touched: the tracker, the
world and the cache entry are left exactly as they were and no pass ran.
On the FIRST compile of such a scene the check is absent; see the
counterexample. -/
theorem missing_camera_cached_fails_unmodified (T : Tracker) (W : World)
    (c0 : ClwSceneRec)
    (hc : List.lookup W.scene.sid T.cache = some c0)
    (hcam : W.scene.camera = false)
    (hs : W.scene.shapes ≠ []) (hl : W.scene.lights ≠ []) :
    (compile T W).err = some CErr.noCamera ∧
    (compile T W).tracker = T ∧
    (compile T W).world = W ∧
    (compile T W).passes = [] := by
  simp [compile, hc, compileHit, hcam]

/-- Claim C3 counterexample: on the FIRST compile of a scene with shapes
and lights but no camera, the call does NOT raise "No camera in the scene"
— the cache-miss path has no camera check, a fresh cache entry is inserted,
and `UpdateCamera` then dereferences the null camera (the distinguished
`cameraNullDeref` fault). -/
theorem first_compile_missing_camera_is_not_noCamera :
    (compile t3 w3).err = some CErr.cameraNullDeref ∧
    (compile t3 w3).err ≠ some CErr.noCamera ∧
    List.lookup w3.scene.sid (compile t3 w3).tracker.cache ≠ none := by
  refine ⟨by decide, by decide, by decide⟩

theorem missing_camera_cached_fails_unmodified_witness :
    (compile t3b w3).err = some CErr.noCamera ∧
    (compile t3b w3).tracker = t3b ∧
    (compile t3b w3).world = w3 ∧
    (compile t3b w3).passes = [] :=
  missing_camera_cached_fails_unmodified t3b w3 ClwSceneRec.empty rfl rfl
    (by decide) (by decide)

theorem updateCameraWorld_scene (W : World) :
    (updateCameraWorld W).scene = W.scene := rfl

theorem updateLightsWorld_scene (W : World) :
    (updateLightsWorld W).scene = W.scene := rfl

theorem updateShapesWorld_scene (W : World) :
    (updateShapesWorld W).scene = W.scene := rfl

theorem ite_world_scene (c : Prop) [Decidable c] (a b : World)
    (h : a.scene = b.scene) : (if c then a else b).scene = b.scene := by
  split
  · exact h
  · rfl

theorem ite_world_lightStore (c : Prop) [Decidable c] (a b : World)
    (h : a.lightStore = b.lightStore) :
    (if c then a else b).lightStore = b.lightStore := by
  split
  · exact h
  · rfl

theorem ite_world_meshStore (c : Prop) [Decidable c] (a b : World)
    (h : a.meshStore = b.meshStore) :
    (if c then a else b).meshStore = b.meshStore := by
  split
  · exact h
  · rfl

theorem ite_world_instStore (c : Prop) [Decidable c] (a b : World)
    (h : a.instStore = b.instStore) :
    (if c then a else b).instStore = b.instStore := by
  split
  · exact h
  · rfl

theorem ite_world_texStore (c : Prop) [Decidable c] (a b : World)
    (h : a.texStore = b.texStore) :
    (if c then a else b).texStore = b.texStore := by
  split
  · exact h
  · rfl

theorem ite_world_cameraDirty (c : Prop) [Decidable c] (a b : World)
    (h : a.cameraDirty = b.cameraDirty) :
    (if c then a else b).cameraDirty = b.cameraDirty := by
  split
  · exact h
  · rfl

/-- What the tail of the cache-hit path does to the world: clears the dirty
flags, clears every committed material's dirty bit, and leaves the camera
bit and the light/mesh/instance/texture stores of its input world alone. -/
theorem compileHitTail_world (T : Tracker) (W : World) (mats texs : List Nat)
    (sid : Nat) (ps : List BuildPass) (c : ClwSceneRec) :
    (compileHitTail T W mats texs sid ps c).world.scene.dirtyFlags =
      SceneDirtyFlags.cleared ∧
    (compileHitTail T W mats texs sid ps c).world.cameraDirty =
      W.cameraDirty ∧
    (compileHitTail T W mats texs sid ps c).world.lightStore = W.lightStore ∧
    (compileHitTail T W mats texs sid ps c).world.meshStore = W.meshStore ∧
    (compileHitTail T W mats texs sid ps c).world.instStore = W.instStore ∧
    (compileHitTail T W mats texs sid ps c).world.texStore = W.texStore ∧
    (∀ m ∈ mats, ∀ d,
      List.lookup m (compileHitTail T W mats texs sid ps c).world.matStore =
        some d → d.dirty = false) := by
  by_cases hdm : (c.material_bundle.isNone ||
      needsUpdate (c.material_bundle.getD []) mats (W.matDirty)) = true
  · simp only [compileHitTail, hdm, if_true]
    refine ⟨rfl, rfl, rfl, rfl, rfl, rfl, ?_⟩
    intro m hm d hd
    rw [show (finalizeScene (updateMaterials W c mats).1 mats).matStore =
      clearMatKeys ((updateMaterials W c mats).1).matStore mats from rfl,
      clearMatKeys] at hd
    exact lookup_clearFold_of_mem (fun d => d.dirty)
      (fun d => { d with dirty := false }) (fun d => rfl) mats
      ((updateMaterials W c mats).1).matStore m hm d hd
  · simp only [compileHitTail, hdm, Bool.false_eq_true, if_false]
    refine ⟨rfl, rfl, rfl, rfl, rfl, rfl, ?_⟩
    intro m hm d hd
    rw [show (finalizeScene W mats).matStore =
      clearMatKeys W.matStore mats from rfl, clearMatKeys] at hd
    exact lookup_clearFold_of_mem (fun d => d.dirty)
      (fun d => { d with dirty := false }) (fun d => rfl) mats
      W.matStore m hm d hd

theorem compileHitTail_world_flags (T : Tracker) (W : World)
    (mats texs : List Nat) (sid : Nat) (ps : List BuildPass)
    (c : ClwSceneRec) :
    (compileHitTail T W mats texs sid ps c).world.scene.dirtyFlags =
      SceneDirtyFlags.cleared :=
  (compileHitTail_world T W mats texs sid ps c).1

theorem compileHitTail_world_cameraDirty (T : Tracker) (W : World)
    (mats texs : List Nat) (sid : Nat) (ps : List BuildPass)
    (c : ClwSceneRec) :
    (compileHitTail T W mats texs sid ps c).world.cameraDirty =
      W.cameraDirty :=
  (compileHitTail_world T W mats texs sid ps c).2.1

theorem compileHitTail_world_lightStore (T : Tracker) (W : World)
    (mats texs : List Nat) (sid : Nat) (ps : List BuildPass)
    (c : ClwSceneRec) :
    (compileHitTail T W mats texs sid ps c).world.lightStore =
      W.lightStore :=
  (compileHitTail_world T W mats texs sid ps c).2.2.1

theorem compileHitTail_world_meshStore (T : Tracker) (W : World)
    (mats texs : List Nat) (sid : Nat) (ps : List BuildPass)
    (c : ClwSceneRec) :
    (compileHitTail T W mats texs sid ps c).world.meshStore = W.meshStore :=
  (compileHitTail_world T W mats texs sid ps c).2.2.2.1

theorem compileHitTail_world_instStore (T : Tracker) (W : World)
    (mats texs : List Nat) (sid : Nat) (ps : List BuildPass)
    (c : ClwSceneRec) :
    (compileHitTail T W mats texs sid ps c).world.instStore = W.instStore :=
  (compileHitTail_world T W mats texs sid ps c).2.2.2.2.1

theorem compileHitTail_world_texStore (T : Tracker) (W : World)
    (mats texs : List Nat) (sid : Nat) (ps : List BuildPass)
    (c : ClwSceneRec) :
    (compileHitTail T W mats texs sid ps c).world.texStore = W.texStore :=
  (compileHitTail_world T W mats texs sid ps c).2.2.2.2.2.1

theorem compileHitTail_world_mat_clean (T : Tracker) (W : World)
    (mats texs : List Nat) (sid : Nat) (ps : List BuildPass)
    (c : ClwSceneRec) :
    ∀ m ∈ mats, ∀ d,
      List.lookup m (compileHitTail T W mats texs sid ps c).world.matStore =
        some d → d.dirty = false :=
  (compileHitTail_world T W mats texs sid ps c).2.2.2.2.2.2

theorem updateLights_fst (W : World) (c : ClwSceneRec) :
    (updateLights W c).1 = updateLightsWorld W := rfl

theorem clearLightKeys_clean (s : Store LightData) (ks : List Nat) (i : Nat)
    (hi : i ∈ ks) (d : LightData)
    (hd : List.lookup i (clearLightKeys s ks) = some d) : d.dirty = false := by
  rw [clearLightKeys] at hd
  exact lookup_clearFold_of_mem (fun d => d.dirty)
    (fun d => { d with dirty := false }) (fun d => rfl) ks s i hi d hd

theorem clearMeshKeys_clean (s : Store MeshData) (ks : List Nat) (i : Nat)
    (hi : i ∈ ks) (d : MeshData)
    (hd : List.lookup i (clearMeshKeys s ks) = some d) : d.dirty = false := by
  rw [clearMeshKeys] at hd
  exact lookup_clearFold_of_mem (fun d => d.dirty)
    (fun d => { d with dirty := false }) (fun d => rfl) ks s i hi d hd

theorem clearInstKeys_clean (s : Store InstData) (ks : List Nat) (i : Nat)
    (hi : i ∈ ks) (d : InstData)
    (hd : List.lookup i (clearInstKeys s ks) = some d) : d.dirty = false := by
  rw [clearInstKeys] at hd
  exact lookup_clearFold_of_mem (fun d => d.dirty)
    (fun d => { d with dirty := false }) (fun d => rfl) ks s i hi d hd

theorem lights_clean_of_cleared (W : World) (S : Store LightData)
    (hS : S = clearLightKeys W.lightStore W.scene.lights) :
    ∀ l ∈ W.scene.lights, ∀ d, List.lookup l S = some d →
      d.dirty = false := by
  intro l hl d hd
  rw [hS] at hd
  exact clearLightKeys_clean _ _ _ hl d hd

theorem lights_clean_of_not_dirty (W : World) (S : Store LightData)
    (hS : S = W.lightStore)
    (h : W.scene.lights.any (W.lightDirty) = false) :
    ∀ l ∈ W.scene.lights, ∀ d, List.lookup l S = some d →
      d.dirty = false := by
  intro l hl d hd
  rw [hS] at hd
  rw [List.any_eq_false] at h
  have hx : W.lightDirty l = false := Bool.eq_false_iff.mpr (h l hl)
  rw [World.lightDirty, hd] at hx
  exact hx

theorem meshes_clean_of_cleared (W V : World) (S : Store MeshData)
    (hV : V.scene = W.scene)
    (hS : S = clearMeshKeys V.meshStore
      ((splitMeshesAndInstances V V.scene.shapes).meshes ++
        (splitMeshesAndInstances V V.scene.shapes).excluded)) :
    ∀ i, ShapeRef.mesh i ∈ W.scene.shapes → ∀ d,
      List.lookup i S = some d → d.dirty = false := by
  intro i hi d hd
  rw [hS] at hd
  refine clearMeshKeys_clean _ _ _ ?_ d hd
  refine List.mem_append_left _ (mem_split_meshes.mpr ?_)
  rw [hV]
  exact hi

theorem insts_clean_of_cleared (W V : World) (S : Store InstData)
    (hV : V.scene = W.scene)
    (hS : S = clearInstKeys V.instStore
      (splitMeshesAndInstances V V.scene.shapes).instances) :
    ∀ i, ShapeRef.inst i ∈ W.scene.shapes → ∀ d,
      List.lookup i S = some d → d.dirty = false := by
  intro i hi d hd
  rw [hS] at hd
  refine clearInstKeys_clean _ _ _ ?_ d hd
  refine mem_split_instances.mpr ?_
  rw [hV]
  exact hi

theorem meshes_clean_of_not_dirty (W : World) (S : Store MeshData)
    (hS : S = W.meshStore)
    (h : W.scene.shapes.any (W.shapeDirty) = false) :
    ∀ i, ShapeRef.mesh i ∈ W.scene.shapes → ∀ d,
      List.lookup i S = some d → d.dirty = false := by
  intro i hi d hd
  rw [hS] at hd
  rw [List.any_eq_false] at h
  have hx : W.shapeDirty (ShapeRef.mesh i) = false :=
    Bool.eq_false_iff.mpr (h _ hi)
  rw [World.shapeDirty, hd] at hx
  exact hx

theorem insts_clean_of_not_dirty (W : World) (S : Store InstData)
    (hS : S = W.instStore)
    (h : W.scene.shapes.any (W.shapeDirty) = false) :
    ∀ i, ShapeRef.inst i ∈ W.scene.shapes → ∀ d,
      List.lookup i S = some d → d.dirty = false := by
  intro i hi d hd
  rw [hS] at hd
  rw [List.any_eq_false] at h
  have hx : W.shapeDirty (ShapeRef.inst i) = false :=
    Bool.eq_false_iff.mpr (h _ hi)
  rw [World.shapeDirty, hd] at hx
  exact hx

/-- The cache-hit tail applied to an intermediate world `V` whose entity
stores already satisfy the cleanliness facts yields a fully clean result
(minus textures, which are untouched). -/
theorem c1_leaf (T : Tracker) (W V : World) (mats texs : List Nat)
    (sid : Nat) (ps : List BuildPass) (c : ClwSceneRec)
    (hcd : V.cameraDirty = false)
    (hlight : ∀ l ∈ W.scene.lights, ∀ d,
      List.lookup l V.lightStore = some d → d.dirty = false)
    (hmesh : ∀ i, ShapeRef.mesh i ∈ W.scene.shapes → ∀ d,
      List.lookup i V.meshStore = some d → d.dirty = false)
    (hinst : ∀ i, ShapeRef.inst i ∈ W.scene.shapes → ∀ d,
      List.lookup i V.instStore = some d → d.dirty = false)
    (htex : V.texStore = W.texStore) :
    (compileHitTail T V mats texs sid ps c).world.scene.dirtyFlags =
      SceneDirtyFlags.cleared ∧
    (compileHitTail T V mats texs sid ps c).world.cameraDirty = false ∧
    (∀ l ∈ W.scene.lights, ∀ d,
      List.lookup l (compileHitTail T V mats texs sid ps c).world.lightStore =
        some d → d.dirty = false) ∧
    (∀ i, ShapeRef.mesh i ∈ W.scene.shapes → ∀ d,
      List.lookup i (compileHitTail T V mats texs sid ps c).world.meshStore =
        some d → d.dirty = false) ∧
    (∀ i, ShapeRef.inst i ∈ W.scene.shapes → ∀ d,
      List.lookup i (compileHitTail T V mats texs sid ps c).world.instStore =
        some d → d.dirty = false) ∧
    (∀ m ∈ mats, ∀ d,
      List.lookup m (compileHitTail T V mats texs sid ps c).world.matStore =
        some d → d.dirty = false) ∧
    (compileHitTail T V mats texs sid ps c).world.texStore = W.texStore := by
  refine ⟨compileHitTail_world_flags T V mats texs sid ps c, ?_, ?_, ?_, ?_,
    compileHitTail_world_mat_clean T V mats texs sid ps c, ?_⟩
  · rw [compileHitTail_world_cameraDirty]
    exact hcd
  · rw [compileHitTail_world_lightStore]
    exact hlight
  · rw [compileHitTail_world_meshStore]
    exact hmesh
  · rw [compileHitTail_world_instStore]
    exact hinst
  · rw [compileHitTail_world_texStore]
    exact htex

theorem clearMatKeys_clean (s : Store MatData) (ks : List Nat) (i : Nat)
    (hi : i ∈ ks) (d : MatData)
    (hd : List.lookup i (clearMatKeys s ks) = some d) : d.dirty = false := by
  rw [clearMatKeys] at hd
  exact lookup_clearFold_of_mem (fun d => d.dirty)
    (fun d => { d with dirty := false }) (fun d => rfl) ks s i hi d hd

theorem mats_clean_of_cleared (S0 : Store MatData) (mats : List Nat)
    (S : Store MatData) (hS : S = clearMatKeys S0 mats) :
    ∀ m ∈ mats, ∀ d, List.lookup m S = some d → d.dirty = false := by
  intro m hm d hd
  rw [hS] at hd
  exact clearMatKeys_clean _ _ _ hm d hd

/-- Claim C1 (amended): after `compile` returns successfully, the scene's
dirty flag set is empty, and the camera, every scene light, every scene
shape and every collected material has its dirty bit cleared; collected
textures are NOT cleared — `compile` leaves the texture store untouched
(see the counterexample). -/
theorem compile_clears_dirty_except_textures (T : Tracker) (W : World)
    (hok : (compile T W).err = none) :
    (compile T W).world.scene.dirtyFlags = SceneDirtyFlags.cleared ∧
    (compile T W).world.cameraDirty = false ∧
    (∀ l ∈ W.scene.lights, ∀ d,
      List.lookup l (compile T W).world.lightStore = some d →
        d.dirty = false) ∧
    (∀ i, ShapeRef.mesh i ∈ W.scene.shapes → ∀ d,
      List.lookup i (compile T W).world.meshStore = some d →
        d.dirty = false) ∧
    (∀ i, ShapeRef.inst i ∈ W.scene.shapes → ∀ d,
      List.lookup i (compile T W).world.instStore = some d →
        d.dirty = false) ∧
    (∀ m ∈ collectMats W, ∀ d,
      List.lookup m (compile T W).world.matStore = some d →
        d.dirty = false) ∧
    (compile T W).world.texStore = W.texStore := by
  cases hc : List.lookup W.scene.sid T.cache with
  | none =>
      simp only [compile, hc] at hok ⊢
      by_cases hcamF : W.scene.camera = false
      · simp [compileMiss, hcamF] at hok
      · simp only [compileMiss, if_neg hcamF] at hok ⊢
        split at hok
        · simp at hok
        · rename_i io heq
          simp only [heq] at hok ⊢
          refine ⟨rfl, rfl, ?_, ?_, ?_, ?_, rfl⟩
          · exact lights_clean_of_cleared W _ rfl
          · exact meshes_clean_of_cleared W
              ((updateLights (updateCameraWorld W) ClwSceneRec.empty).1) _
              rfl rfl
          · exact insts_clean_of_cleared W
              ((updateLights (updateCameraWorld W) ClwSceneRec.empty).1) _
              rfl rfl
          · exact mats_clean_of_cleared _ _ _ rfl
  | some c0 =>
      simp only [compile, hc] at hok ⊢
      by_cases hcamF : W.scene.camera = false
      · simp [compileHit, hcamF] at hok
      · have hcamT : W.scene.camera = true := by
          cases h : W.scene.camera
          · exact absurd h hcamF
          · rfl
        by_cases hleT : W.scene.lights.isEmpty = true
        · simp [compileHit, hcamT, hleT] at hok
        have hle2 : W.scene.lights.isEmpty = false := by
          cases h : W.scene.lights.isEmpty
          · rfl
          · exact absurd h hleT
        by_cases hseT : W.scene.shapes.isEmpty = true
        · simp [compileHit, hcamT, hle2, hseT] at hok
        have hse2 : W.scene.shapes.isEmpty = false := by
          cases h : W.scene.shapes.isEmpty
          · rfl
          · exact absurd h hseT
        by_cases hds : (W.scene.dirtyFlags.shapes ||
            W.scene.shapes.any W.shapeDirty) = true
        · -- the shapes pass runs
          by_cases hdl : (W.scene.dirtyFlags.lights ||
              W.scene.lights.any W.lightDirty) = true
          · by_cases hdc : (W.scene.dirtyFlags.camera || W.cameraDirty) = true
            · simp only [compileHit, hcamT, hle2, hse2, hdc, hdl, hds,
                updateLights_fst, if_true, Bool.true_eq_false, if_false] at hok ⊢
              rw [if_neg Bool.false_ne_true, if_neg Bool.false_ne_true] at hok ⊢
              split at hok
              · simp at hok
              · rename_i io heq
                refine c1_leaf T W
                  (updateShapesWorld (updateLightsWorld (updateCameraWorld W)))
                  _ _ _ _ _ rfl ?_ ?_ ?_ rfl
                · exact lights_clean_of_cleared W _ rfl
                · exact meshes_clean_of_cleared W
                    (updateLightsWorld (updateCameraWorld W)) _ rfl rfl
                · exact insts_clean_of_cleared W
                    (updateLightsWorld (updateCameraWorld W)) _ rfl rfl
            · have hcd0 : W.cameraDirty = false := by
                cases h : W.cameraDirty
                · rfl
                · exact absurd (by rw [h, Bool.or_true]) hdc
              simp only [compileHit, hcamT, hle2, hse2, hdc, hdl, hds,
                updateLights_fst, if_true, Bool.true_eq_false, if_false] at hok ⊢
              rw [if_neg Bool.false_ne_true, if_neg Bool.false_ne_true] at hok ⊢
              split at hok
              · simp at hok
              · rename_i io heq
                refine c1_leaf T W
                  (updateShapesWorld (updateLightsWorld W))
                  _ _ _ _ _ hcd0 ?_ ?_ ?_ rfl
                · exact lights_clean_of_cleared W _ rfl
                · exact meshes_clean_of_cleared W (updateLightsWorld W) _
                    rfl rfl
                · exact insts_clean_of_cleared W (updateLightsWorld W) _
                    rfl rfl
          · have hanyl : W.scene.lights.any W.lightDirty = false := by
              cases h : W.scene.lights.any W.lightDirty
              · rfl
              · exact absurd (by rw [h, Bool.or_true]) hdl
            by_cases hdc : (W.scene.dirtyFlags.camera || W.cameraDirty) = true
            · simp only [compileHit, hcamT, hle2, hse2, hdc, hdl, hds,
                updateLights_fst, if_true, Bool.true_eq_false, if_false] at hok ⊢
              rw [if_neg Bool.false_ne_true, if_neg Bool.false_ne_true] at hok ⊢
              split at hok
              · simp at hok
              · rename_i io heq
                refine c1_leaf T W
                  (updateShapesWorld (updateCameraWorld W))
                  _ _ _ _ _ rfl ?_ ?_ ?_ rfl
                · exact lights_clean_of_not_dirty W _ rfl hanyl
                · exact meshes_clean_of_cleared W (updateCameraWorld W) _
                    rfl rfl
                · exact insts_clean_of_cleared W (updateCameraWorld W) _
                    rfl rfl
            · have hcd0 : W.cameraDirty = false := by
                cases h : W.cameraDirty
                · rfl
                · exact absurd (by rw [h, Bool.or_true]) hdc
              simp only [compileHit, hcamT, hle2, hse2, hdc, hdl, hds,
                updateLights_fst, if_true, Bool.true_eq_false, if_false] at hok ⊢
              rw [if_neg Bool.false_ne_true, if_neg Bool.false_ne_true] at hok ⊢
              split at hok
              · simp at hok
              · rename_i io heq
                refine c1_leaf T W (updateShapesWorld W)
                  _ _ _ _ _ hcd0 ?_ ?_ ?_ rfl
                · exact lights_clean_of_not_dirty W _ rfl hanyl
                · exact meshes_clean_of_cleared W W _ rfl rfl
                · exact insts_clean_of_cleared W W _ rfl rfl
        · -- the shapes pass is skipped: no shape was dirty
          have hanys : W.scene.shapes.any W.shapeDirty = false := by
            cases h : W.scene.shapes.any W.shapeDirty
            · rfl
            · exact absurd (by rw [h, Bool.or_true]) hds
          by_cases hdl : (W.scene.dirtyFlags.lights ||
              W.scene.lights.any W.lightDirty) = true
          · by_cases hdc : (W.scene.dirtyFlags.camera || W.cameraDirty) = true
            · simp only [compileHit, hcamT, hle2, hse2, hdc, hdl, hds,
                updateLights_fst, if_true, Bool.true_eq_false, if_false] at hok ⊢
              rw [if_neg Bool.false_ne_true, if_neg Bool.false_ne_true] at hok ⊢
              refine c1_leaf T W (updateLightsWorld (updateCameraWorld W))
                _ _ _ _ _ rfl ?_ ?_ ?_ rfl
              · exact lights_clean_of_cleared W _ rfl
              · exact meshes_clean_of_not_dirty W _ rfl hanys
              · exact insts_clean_of_not_dirty W _ rfl hanys
            · have hcd0 : W.cameraDirty = false := by
                cases h : W.cameraDirty
                · rfl
                · exact absurd (by rw [h, Bool.or_true]) hdc
              simp only [compileHit, hcamT, hle2, hse2, hdc, hdl, hds,
                updateLights_fst, if_true, Bool.true_eq_false, if_false] at hok ⊢
              rw [if_neg Bool.false_ne_true, if_neg Bool.false_ne_true] at hok ⊢
              refine c1_leaf T W (updateLightsWorld W)
                _ _ _ _ _ hcd0 ?_ ?_ ?_ rfl
              · exact lights_clean_of_cleared W _ rfl
              · exact meshes_clean_of_not_dirty W _ rfl hanys
              · exact insts_clean_of_not_dirty W _ rfl hanys
          · have hanyl : W.scene.lights.any W.lightDirty = false := by
              cases h : W.scene.lights.any W.lightDirty
              · rfl
              · exact absurd (by rw [h, Bool.or_true]) hdl
            by_cases hdc : (W.scene.dirtyFlags.camera || W.cameraDirty) = true
            · simp only [compileHit, hcamT, hle2, hse2, hdc, hdl, hds,
                updateLights_fst, if_true, Bool.true_eq_false, if_false] at hok ⊢
              rw [if_neg Bool.false_ne_true, if_neg Bool.false_ne_true] at hok ⊢
              refine c1_leaf T W (updateCameraWorld W)
                _ _ _ _ _ rfl ?_ ?_ ?_ rfl
              · exact lights_clean_of_not_dirty W _ rfl hanyl
              · exact meshes_clean_of_not_dirty W _ rfl hanys
              · exact insts_clean_of_not_dirty W _ rfl hanys
            · have hcd0 : W.cameraDirty = false := by
                cases h : W.cameraDirty
                · rfl
                · exact absurd (by rw [h, Bool.or_true]) hdc
              simp only [compileHit, hcamT, hle2, hse2, hdc, hdl, hds,
                updateLights_fst, if_true, Bool.true_eq_false, if_false] at hok ⊢
              rw [if_neg Bool.false_ne_true, if_neg Bool.false_ne_true] at hok ⊢
              refine c1_leaf T W W _ _ _ _ _ hcd0 ?_ ?_ ?_ rfl
              · exact lights_clean_of_not_dirty W _ rfl hanyl
              · exact meshes_clean_of_not_dirty W _ rfl hanys
              · exact insts_clean_of_not_dirty W _ rfl hanys

/-- Claim C1 counterexample: a successful `compile` of `w1c` leaves the
collected texture 9 dirty — `UpdateTextures` never calls `SetDirty(false)`
on textures, so "every collected texture has its dirty bit cleared" is
false. -/
theorem compile_does_not_clear_texture_dirty :
    (compile t1c w1c).err = none ∧
    9 ∈ collectTexs w1c (collectMats w1c) ∧
    List.lookup 9 (compile t1c w1c).world.texStore = some { dirty := true } := by
  refine ⟨by decide, by decide, by decide⟩

theorem compile_clears_dirty_except_textures_witness :
    (compile t1c w1c).world.scene.dirtyFlags = SceneDirtyFlags.cleared ∧
    (compile t1c w1c).world.cameraDirty = false ∧
    (∀ l ∈ w1c.scene.lights, ∀ d,
      List.lookup l (compile t1c w1c).world.lightStore = some d →
        d.dirty = false) ∧
    (∀ i, ShapeRef.mesh i ∈ w1c.scene.shapes → ∀ d,
      List.lookup i (compile t1c w1c).world.meshStore = some d →
        d.dirty = false) ∧
    (∀ i, ShapeRef.inst i ∈ w1c.scene.shapes → ∀ d,
      List.lookup i (compile t1c w1c).world.instStore = some d →
        d.dirty = false) ∧
    (∀ m ∈ collectMats w1c, ∀ d,
      List.lookup m (compile t1c w1c).world.matStore = some d →
        d.dirty = false) ∧
    (compile t1c w1c).world.texStore = w1c.texStore :=
  compile_clears_dirty_except_textures t1c w1c (by decide)

end Baikal

